import Mathlib

/-
Verification of the na_hitokoto_content worker.

The repository is a Cloudflare Worker that periodically fetches a dynamic
prompt from an external source, calls an LLM API, and caches the generated
text behind a small HTTP surface.  The repository contains four successive
revisions of the update orchestrator:

  * src/unnamed/part_000, first section  (namespace V1):
    3-attempt retry loop, single model, prompt fetched inside every attempt,
    loop returns without a value both on success and on exhaustion.
  * src/src/index.js                      (namespace IndexJs):
    16-attempt retry loop over two models (gemini-pro-latest primary,
    gemini-flash-latest fallback), escalation on status 429 only, prompt
    fetched inside every attempt, throws on exhaustion.
  * src/unnamed/part_000, second section (namespace V2):
    4-attempt loop over registry keys PRIMARY and FALLBACK, escalation on
    status 429 or status 500 and above, prompt fetched inside every attempt,
    throws on the last failing attempt.
  * src/unnamed/part_000, third section  (namespace V3):
    prompt pre-fetched exactly once, 8-attempt loop over PRIMARY and
    FALLBACK with escalation on status 429 only, then one last attempt
    against the FINAL registry entry, throwing an aggregate error when
    everything failed.

Each revision is embedded as a pure function over a World that fixes the
environment bindings and the outcomes of the external HTTP calls (prompt
source and LLM endpoints).  Every run returns a RunRecord: the terminal
outcome (a result, a thrown error, or no value at all), the final state of
the single cache slot, and an instrumentation log counting prompt-source
adapter calls, LLM-client invocations, loop attempts and cache writes.
-/

/-- JavaScript truthiness of a possibly absent string: undefined, null and
the empty string are falsy. -/
def jsTruthy : Option String → Bool
  | none => false
  | some s => s != ""

/-- JavaScript orelse on a possibly absent string, as in
reason or default: an absent or empty string selects the default. -/
def jsOr (o : Option String) (d : String) : String :=
  match o with
  | none => d
  | some s => if s = "" then d else s

/-- Whitespace characters removed by the String.prototype.trim model
(ASCII subset; the source values never involve the exotic ones). -/
def isJsWhitespace (c : Char) : Bool :=
  c = ' ' || c = '\t' || c = '\n' || c = '\r'

/-- Model of JavaScript String.prototype.trim: drop leading and trailing
whitespace. -/
def jsTrim (s : String) : String :=
  String.mk (((s.data.dropWhile isJsWhitespace).reverse.dropWhile isJsWhitespace).reverse)

/-- Helper for the model of String.prototype.split with a single-space
separator: split a character list at every space. -/
def splitSpaceAux : List Char → List Char → List String
  | [], acc => [String.mk acc.reverse]
  | c :: rest, acc =>
      if c = ' ' then String.mk acc.reverse :: splitSpaceAux rest []
      else splitSpaceAux rest (c :: acc)

/-- Model of JavaScript str.split(" "). -/
def jsSplitSpace (s : String) : List String :=
  splitSpaceAux s.data []

/-- Model of JavaScript str.startsWith(p). -/
def jsStartsWith (s p : String) : Bool :=
  p.data.isPrefixOf s.data

/-- A JavaScript Error value as used by the worker: a message plus the
optional statusCode (spelled status_code in index.js) that the code attaches
for the escalation decision. -/
structure JsError where
  statusCode : Option Nat
  message : String
deriving DecidableEq, Repr

/-- Outcome of an awaited JavaScript call: a value or a thrown error. -/
inductive JsResult (α : Type) where
  | ok (value : α)
  | err (e : JsError)
deriving DecidableEq, Repr

/-- Outcome of the HTTP request to the external prompt source. -/
inductive FetchResp where
  | httpError (status : Nat)
  | ok (body : String)
deriving DecidableEq, Repr

/-- Outcome of an HTTP request to an LLM endpoint: a non-2xx response, or a
2xx response carrying the (possibly absent) generated-text field and the
(possibly absent) finish reason, as read from the JSON response paths used
by the source. -/
inductive LLMHttp where
  | httpError (status : Nat) (body : String)
  | ok (text : Option String) (finishReason : Option String)
deriving DecidableEq, Repr

/-- One entry of the LLM client within a run: the model key or name it was
invoked for and the dynamic prompt it was given. -/
structure Invocation where
  model : String
  prompt : String
deriving DecidableEq, Repr

/-- One iteration of an orchestrator retry loop: the model key or name the
iteration used and its outcome. -/
structure Attempt where
  model : String
  outcome : JsResult String
deriving DecidableEq, Repr

/-- Instrumentation collected along a run: number of calls to the prompt
source adapter, the LLM client entries, the loop iterations, and the values
written to the cache, in order. -/
structure RunLog where
  promptFetches : Nat
  invocations : List Invocation
  attempts : List Attempt
  cacheWrites : List String
deriving DecidableEq, Repr

def RunLog.append (a b : RunLog) : RunLog :=
  ⟨a.promptFetches + b.promptFetches, a.invocations ++ b.invocations,
   a.attempts ++ b.attempts, a.cacheWrites ++ b.cacheWrites⟩

def emptyLog : RunLog := ⟨0, [], [], []⟩

/-- Log contribution of one call to the prompt source adapter. -/
def fetchLog : RunLog := ⟨1, [], [], []⟩

/-- Log contribution of one entry into the LLM client. -/
def invokeLog (model prompt : String) : RunLog := ⟨0, [⟨model, prompt⟩], [], []⟩

/-- Log contribution of one loop iteration. -/
def attemptLog (a : Attempt) : RunLog := ⟨0, [], [a], []⟩

/-- Log contribution of one cache write. -/
def putLog (text : String) : RunLog := ⟨0, [], [], [text]⟩

/-- Terminal state of one orchestrator run: a returned result (model used
plus generated content), a thrown error, or completion without either (the
JavaScript function returned undefined). -/
inductive RunOutcome where
  | ok (model : String) (content : String)
  | err (e : JsError)
  | noResult
deriving DecidableEq, Repr

/-- True exactly when the run ended with a returned result or a thrown
error. -/
def isTerminal : RunOutcome → Bool
  | RunOutcome.ok _ _ => true
  | RunOutcome.err _ => true
  | RunOutcome.noResult => false

/-- Full record of one orchestrator run. -/
structure RunRecord where
  outcome : RunOutcome
  cache : Option String
  log : RunLog
deriving DecidableEq, Repr

/-- The environment bindings the worker reads. -/
structure Env where
  UPDATE_TOKEN : Option String
  GEMINI_API_KEY : Option String
  GITHUB_API_KEY : Option String

/-- Lookup env[name], as callOpenAIStyleAPI does with apiKeyEnv. -/
def envLookup (e : Env) (name : String) : Option String :=
  if name = "UPDATE_TOKEN" then e.UPDATE_TOKEN
  else if name = "GEMINI_API_KEY" then e.GEMINI_API_KEY
  else if name = "GITHUB_API_KEY" then e.GITHUB_API_KEY
  else none

/-- A world fixes the environment and the outcomes of all external HTTP
calls of a run: promptHttp n is the response to the n-th prompt-source
request, llmHttp n m the response to the n-th LLM request, made for model
key or model name m. -/
structure World where
  env : Env
  promptHttp : Nat → FetchResp
  llmHttp : Nat → String → LLMHttp

/-- The contents of the static prompt files system_prompt.txt and
user_prompt.txt (not part of the snapshot; their values never influence the
properties proved here, because the LLM responses are supplied by the
world). -/
def systemPromptText : String := "system prompt"

def userPromptText : String := "user prompt"

/-- statusCode at least 500, with the JavaScript semantics of
undefined at least 500 being false. -/
def statusGe500Opt : Option Nat → Bool
  | some v => decide (500 ≤ v)
  | none => false

def isFailure : Attempt → Bool
  | ⟨_, JsResult.err _⟩ => true
  | ⟨_, JsResult.ok _⟩ => false

/-- Status code carried by a failed attempt, if any. -/
def attemptStatus (a : Attempt) : Option Nat :=
  match a.outcome with
  | JsResult.err e => e.statusCode
  | JsResult.ok _ => none

/-- The attempt failed and its failure carries statusCode 429. -/
def qualifies429 (a : Attempt) : Bool :=
  match a.outcome with
  | JsResult.err e => e.statusCode == some 429
  | JsResult.ok _ => false

/-- The attempt failed and its failure carries a statusCode of 500 or
more. -/
def qualifies5xx (a : Attempt) : Bool :=
  match a.outcome with
  | JsResult.err e => statusGe500Opt e.statusCode
  | JsResult.ok _ => false

/-- The attempt failed with neither a 429 nor a 5xx status code. -/
def nonQualifyingFailure (a : Attempt) : Bool :=
  isFailure a && !(qualifies429 a) && !(qualifies5xx a)

/-- Shared handling of an LLM 2xx response without usable text in the
Gemini-style revisions (V1 and index.js): a SAFETY finish reason gets a
dedicated message. -/
def generateFailure (finishReason : Option String) : JsResult String :=
  if finishReason = some "SAFETY" then
    JsResult.err ⟨none, "LLM API 响应因安全原因被阻止。"⟩
  else
    JsResult.err ⟨none, "LLM API 未返回有效的文本内容。"⟩

namespace IndexJs

/- Embedding of src/src/index.js. -/

def KV_KEY : String := "generated_text"

def PRIMARY_MODEL : String := "gemini-pro-latest"

def FALLBACK_MODEL : String := "gemini-flash-latest"

def RETRY_ATTEMPTS : Nat := 16

structure ModelConfig where
  api_url : String
  thinking_budget : Nat
deriving DecidableEq, Repr

def MODEL_CONFIG (name : String) : Option ModelConfig :=
  if name = "gemini-pro-latest" then
    some ⟨"https://generativelanguage.googleapis.com/v1beta/models/gemini-pro-latest:generateContent", 32768⟩
  else if name = "gemini-flash-latest" then
    some ⟨"https://generativelanguage.googleapis.com/v1beta/models/gemini-flash-latest:generateContent", 24576⟩
  else none

/-- get_external_prompt of index.js: requires UPDATE_TOKEN, then POSTs to
the prompt source; a non-ok response throws an error with status_code
attached.  The n argument selects which prompt-source response of the world
this call observes. -/
def get_external_prompt (w : World) (n : Nat) : JsResult String :=
  if jsTruthy w.env.UPDATE_TOKEN = false then
    JsResult.err ⟨none, "UPDATE_TOKEN 环境变量未设置，无法从外部 URL 获取 prompt。"⟩
  else
    match w.promptHttp n with
    | FetchResp.httpError status =>
        JsResult.err ⟨some status, "无法从外部 URL 获取 prompt，状态码: " ++ toString status⟩
    | FetchResp.ok text => JsResult.ok text

/-- generate_text_with_llm of index.js: needs GEMINI_API_KEY and a known
model name; a non-ok HTTP response throws with status_code attached; a 2xx
response without text throws per generateFailure; otherwise the text is
trimmed and returned. -/
def generate_text_with_llm (w : World) (n : Nat)
    (_system_prompt _fixed_user_prompt _dynamic_user_prompt : String)
    (model_name : String) : JsResult String :=
  if jsTruthy w.env.GEMINI_API_KEY = false then
    JsResult.err ⟨none, "GEMINI_API_KEY 未设置。请在 Cloudflare Worker 的环境变量中配置它。"⟩
  else
    match MODEL_CONFIG model_name with
    | none => JsResult.err ⟨none, "未知的模型名称: " ++ model_name⟩
    | some _model_config =>
      match w.llmHttp n model_name with
      | LLMHttp.httpError status _body =>
          JsResult.err ⟨some status, "LLM API 请求失败，状态码: " ++ toString status⟩
      | LLMHttp.ok text finishReason =>
        match text with
        | some t => if t = "" then generateFailure finishReason else JsResult.ok (jsTrim t)
        | none => generateFailure finishReason

/-- update_kv_text of index.js: fetch the external prompt, generate, store
in the cache, and return the new text.  Every call fetches the prompt
anew.  The log records the adapter call, the client entry and the cache
write of this attempt. -/
def update_kv_text (w : World) (n : Nat) (model_name : String) (cache : Option String) :
    JsResult String × Option String × RunLog :=
  match get_external_prompt w n with
  | JsResult.err e => (JsResult.err e, cache, fetchLog)
  | JsResult.ok external_prompt =>
    match generate_text_with_llm w n systemPromptText userPromptText external_prompt model_name with
    | JsResult.err e =>
        (JsResult.err e, cache, RunLog.append fetchLog (invokeLog model_name external_prompt))
    | JsResult.ok new_text =>
        (JsResult.ok new_text, some new_text,
          RunLog.append (RunLog.append fetchLog (invokeLog model_name external_prompt))
            (putLog new_text))

/-- The retry loop of run_update_with_retries, by remaining fuel.  On a
failure before the last attempt the model for the next attempt falls back
exactly when the current model is the primary one and the failure carries
status_code 429.  Exhaustion throws. -/
def retryLoop (w : World) : Nat → Nat → String → Option String →
    RunOutcome × Option String × RunLog
  | 0, _, _, cache =>
      (RunOutcome.err ⟨none, "All retry attempts failed. The content was not updated."⟩,
        cache, emptyLog)
  | Nat.succ rem, n, model_for_this_attempt, cache =>
    match update_kv_text w n model_for_this_attempt cache with
    | (JsResult.ok new_content, cache2, log) =>
        (RunOutcome.ok model_for_this_attempt new_content, cache2,
          RunLog.append log (attemptLog ⟨model_for_this_attempt, JsResult.ok new_content⟩))
    | (JsResult.err e, cache2, log) =>
        let next :=
          if 0 < rem then
            if model_for_this_attempt = PRIMARY_MODEL ∧ e.statusCode = some 429 then
              FALLBACK_MODEL
            else model_for_this_attempt
          else model_for_this_attempt
        let rest := retryLoop w rem (Nat.succ n) next cache2
        (rest.1, rest.2.1,
          RunLog.append
            (RunLog.append log (attemptLog ⟨model_for_this_attempt, JsResult.err e⟩))
            rest.2.2)

/-- run_update_with_retries of index.js: up to RETRY_ATTEMPTS attempts
starting from the primary model. -/
def run_update_with_retries (w : World) (cache : Option String) : RunRecord :=
  let r := retryLoop w RETRY_ATTEMPTS 0 PRIMARY_MODEL cache
  ⟨r.1, r.2.1, r.2.2⟩

end IndexJs

namespace V1

/- Embedding of the first section of src/unnamed/part_000 (lines 1-238). -/

def RETRY_ATTEMPTS : Nat := 3

def MODEL_ID : String := "gemini-2.5-pro"

/-- get_external_prompt of the first revision: a plain GET without token;
non-ok responses throw an error with the status only in the message (no
status_code field is attached in this revision). -/
def get_external_prompt (w : World) (n : Nat) : JsResult String :=
  match w.promptHttp n with
  | FetchResp.httpError status =>
      JsResult.err ⟨none, "无法从外部 URL 获取 prompt，状态码: " ++ toString status⟩
  | FetchResp.ok text => JsResult.ok text

/-- generate_text_with_llm of the first revision: fixed gemini-2.5-pro
endpoint; no status_code is attached to any thrown error. -/
def generate_text_with_llm (w : World) (n : Nat)
    (_system_prompt _fixed_user_prompt _dynamic_user_prompt : String) : JsResult String :=
  if jsTruthy w.env.GEMINI_API_KEY = false then
    JsResult.err ⟨none, "GEMINI_API_KEY 未设置。请在 Cloudflare Worker 的环境变量中配置它。"⟩
  else
    match w.llmHttp n MODEL_ID with
    | LLMHttp.httpError status _body =>
        JsResult.err ⟨none, "LLM API 请求失败，状态码: " ++ toString status⟩
    | LLMHttp.ok text finishReason =>
      match text with
      | some t => if t = "" then generateFailure finishReason else JsResult.ok (jsTrim t)
      | none => generateFailure finishReason

/-- update_kv_text of the first revision. -/
def update_kv_text (w : World) (n : Nat) (cache : Option String) :
    JsResult String × Option String × RunLog :=
  match get_external_prompt w n with
  | JsResult.err e => (JsResult.err e, cache, fetchLog)
  | JsResult.ok external_prompt =>
    match generate_text_with_llm w n systemPromptText userPromptText external_prompt with
    | JsResult.err e =>
        (JsResult.err e, cache, RunLog.append fetchLog (invokeLog MODEL_ID external_prompt))
    | JsResult.ok new_text =>
        (JsResult.ok new_text, some new_text,
          RunLog.append (RunLog.append fetchLog (invokeLog MODEL_ID external_prompt))
            (putLog new_text))

/-- The retry loop of the first revision: on success it returns (with no
value), on exhaustion it only logs and falls through, so the function ends
with the JavaScript value undefined on every path. -/
def retryLoop (w : World) : Nat → Nat → Option String →
    RunOutcome × Option String × RunLog
  | 0, _, cache => (RunOutcome.noResult, cache, emptyLog)
  | Nat.succ rem, n, cache =>
    match update_kv_text w n cache with
    | (JsResult.ok t, cache2, log) =>
        (RunOutcome.noResult, cache2,
          RunLog.append log (attemptLog ⟨MODEL_ID, JsResult.ok t⟩))
    | (JsResult.err e, cache2, log) =>
        let rest := retryLoop w rem (Nat.succ n) cache2
        (rest.1, rest.2.1,
          RunLog.append (RunLog.append log (attemptLog ⟨MODEL_ID, JsResult.err e⟩)) rest.2.2)

/-- run_update_with_retries of the first revision. -/
def run_update_with_retries (w : World) (cache : Option String) : RunRecord :=
  let r := retryLoop w RETRY_ATTEMPTS 0 cache
  ⟨r.1, r.2.1, r.2.2⟩

end V1

/-- Registry entry shape shared by the second and third part_000 sections.
The generation parameters (temperature, reasoning effort) are merged into
the request payload only, so they are abstracted into the llmHttp oracle of
the world. -/
structure ModelConfig where
  id : String
  endpoint : String
  apiKeyEnv : String
deriving DecidableEq, Repr

/-- fetchRemotePrompt, identical in the second and third part_000 sections:
requires UPDATE_TOKEN, POSTs to the prompt source, attaches statusCode to
the error on a non-ok response. -/
def fetchRemotePrompt (w : World) (n : Nat) : JsResult String :=
  if jsTruthy w.env.UPDATE_TOKEN = false then
    JsResult.err ⟨none, "Missing UPDATE_TOKEN environment variable."⟩
  else
    match w.promptHttp n with
    | FetchResp.httpError status =>
        JsResult.err ⟨some status, "Remote prompt fetch failed: " ++ toString status⟩
    | FetchResp.ok text => JsResult.ok text

/-- callOpenAIStyleAPI, identical in the second and third part_000
sections: resolves the API key from the environment slot named by the
config, attaches statusCode to the error on a non-ok response, throws the
finish reason when the response carries no content, and trims the content
otherwise.  tierKey is the registry key under which modelConfig was found;
it indexes the llmHttp oracle and the instrumentation (in the source only
the config object itself is passed). -/
def callOpenAIStyleAPI (w : World) (n : Nat) (modelConfig : ModelConfig) (tierKey : String)
    (_sysPrompt _userFixed _userDynamic : String) : JsResult String :=
  if jsTruthy (envLookup w.env modelConfig.apiKeyEnv) = false then
    JsResult.err ⟨none, "API Key not found for environment variable: " ++ modelConfig.apiKeyEnv⟩
  else
    match w.llmHttp n tierKey with
    | LLMHttp.httpError status _body =>
        JsResult.err ⟨some status, "API Request Failed (" ++ toString status ++ ")"⟩
    | LLMHttp.ok content finishReason =>
      match content with
      | some s =>
          if s = "" then JsResult.err ⟨none, jsOr finishReason "Unknown error (no content returned)"⟩
          else JsResult.ok (jsTrim s)
      | none => JsResult.err ⟨none, jsOr finishReason "Unknown error (no content returned)"⟩

namespace V2

/- Embedding of the second section of src/unnamed/part_000 (lines
239-566). -/

def MAX_ATTEMPTS : Nat := 4

def MODEL_REGISTRY (key : String) : Option ModelConfig :=
  if key = "PRIMARY" then
    some ⟨"gemini-3-flash-preview",
      "https://generativelanguage.googleapis.com/v1beta/openai/chat/completions", "GEMINI_API_KEY"⟩
  else if key = "FALLBACK" then
    some ⟨"gemini-2.5-flash",
      "https://generativelanguage.googleapis.com/v1beta/openai/chat/completions", "GEMINI_API_KEY"⟩
  else none

/-- generateAndCacheContent of the second revision: fetches the dynamic
prompt inside every call, then invokes the LLM client and stores the result.
An unknown registry key would make the source crash on a property access of
undefined inside the client; that dead branch (never reached from the
orchestrator) is modelled as the corresponding thrown TypeError. -/
def generateAndCacheContent (w : World) (n : Nat) (modelKey : String) (cache : Option String) :
    JsResult String × Option String × RunLog :=
  match fetchRemotePrompt w n with
  | JsResult.err e => (JsResult.err e, cache, fetchLog)
  | JsResult.ok dynamicPrompt =>
    match MODEL_REGISTRY modelKey with
    | none =>
        (JsResult.err ⟨none, "TypeError: cannot read properties of undefined"⟩, cache, fetchLog)
    | some modelConfig =>
      match callOpenAIStyleAPI w n modelConfig modelKey systemPromptText userPromptText dynamicPrompt with
      | JsResult.err e =>
          (JsResult.err e, cache, RunLog.append fetchLog (invokeLog modelKey dynamicPrompt))
      | JsResult.ok t =>
          (JsResult.ok t, some t,
            RunLog.append (RunLog.append fetchLog (invokeLog modelKey dynamicPrompt)) (putLog t))

/-- The loop of executeResilientUpdate in the second revision: the last
failing attempt throws (before any escalation), an earlier failure
escalates PRIMARY to FALLBACK when the status is 429 or at least 500.  The
fuel-0 case corresponds to falling off the for loop, which in the source
would return undefined; it is unreachable from MAX_ATTEMPTS. -/
def updateLoop (w : World) : Nat → Nat → String → Option String →
    RunOutcome × Option String × RunLog
  | 0, _, _, cache => (RunOutcome.noResult, cache, emptyLog)
  | Nat.succ rem, n, currentModelKey, cache =>
    match generateAndCacheContent w n currentModelKey cache with
    | (JsResult.ok generatedText, cache2, log) =>
        (RunOutcome.ok currentModelKey generatedText, cache2,
          RunLog.append log (attemptLog ⟨currentModelKey, JsResult.ok generatedText⟩))
    | (JsResult.err e, cache2, log) =>
        let logA := RunLog.append log (attemptLog ⟨currentModelKey, JsResult.err e⟩)
        if rem = 0 then
          (RunOutcome.err ⟨none,
             "Failed to update content after " ++ toString MAX_ATTEMPTS
               ++ " attempts. Last error: " ++ e.message⟩,
           cache2, logA)
        else
          let nextKey :=
            if currentModelKey = "PRIMARY" ∧
                (e.statusCode = some 429 ∨ statusGe500Opt e.statusCode = true) then
              "FALLBACK"
            else currentModelKey
          let rest := updateLoop w rem (Nat.succ n) nextKey cache2
          (rest.1, rest.2.1, RunLog.append logA rest.2.2)

/-- executeResilientUpdate of the second revision. -/
def executeResilientUpdate (w : World) (cache : Option String) : RunRecord :=
  let r := updateLoop w MAX_ATTEMPTS 0 "PRIMARY" cache
  ⟨r.1, r.2.1, r.2.2⟩

end V2

namespace V3

/- Embedding of the third section of src/unnamed/part_000 (lines
567-919). -/

def MAX_ATTEMPTS : Nat := 8

def MODEL_REGISTRY (key : String) : Option ModelConfig :=
  if key = "PRIMARY" then
    some ⟨"gemini-3-flash-preview",
      "https://generativelanguage.googleapis.com/v1beta/openai/chat/completions", "GEMINI_API_KEY"⟩
  else if key = "FALLBACK" then
    some ⟨"gemini-2.5-flash",
      "https://generativelanguage.googleapis.com/v1beta/openai/chat/completions", "GEMINI_API_KEY"⟩
  else if key = "FINAL" then
    some ⟨"gpt-4.1", "https://models.inference.ai.azure.com/chat/completions", "GITHUB_API_KEY"⟩
  else none

/-- generateAndCacheContent of the third revision: receives the pre-fetched
dynamic prompt, checks the registry key, invokes the LLM client, stores the
result. -/
def generateAndCacheContent (w : World) (n : Nat) (modelKey : String) (dynamicPrompt : String)
    (cache : Option String) : JsResult String × Option String × RunLog :=
  match MODEL_REGISTRY modelKey with
  | none =>
      (JsResult.err ⟨none, "Model configuration for " ++ modelKey ++ " not found."⟩,
        cache, emptyLog)
  | some modelConfig =>
    match callOpenAIStyleAPI w n modelConfig modelKey systemPromptText userPromptText dynamicPrompt with
    | JsResult.err e => (JsResult.err e, cache, invokeLog modelKey dynamicPrompt)
    | JsResult.ok generatedContent =>
        (JsResult.ok generatedContent, some generatedContent,
          RunLog.append (invokeLog modelKey dynamicPrompt) (putLog generatedContent))

/-- Result of stage one of the third revision: a success, or exhaustion
carrying the last error (null when no attempt ran). -/
inductive Stage1Result where
  | success (modelKey : String) (content : String)
  | exhausted (lastError : Option JsError)
deriving DecidableEq, Repr

/-- Stage one of executeResilientUpdate in the third revision: the retry
loop over PRIMARY and FALLBACK with the 429-only escalation rule, threading
lastError. -/
def stage1 (w : World) (dynamicPrompt : String) : Nat → Nat → String → Option JsError →
    Option String → Stage1Result × Option String × RunLog
  | 0, _, _, lastError, cache => (Stage1Result.exhausted lastError, cache, emptyLog)
  | Nat.succ rem, n, currentModelKey, _lastError, cache =>
    match generateAndCacheContent w n currentModelKey dynamicPrompt cache with
    | (JsResult.ok generatedText, cache2, log) =>
        (Stage1Result.success currentModelKey generatedText, cache2,
          RunLog.append log (attemptLog ⟨currentModelKey, JsResult.ok generatedText⟩))
    | (JsResult.err e, cache2, log) =>
        let nextKey :=
          if currentModelKey = "PRIMARY" ∧ e.statusCode = some 429 then "FALLBACK"
          else currentModelKey
        let rest := stage1 w dynamicPrompt rem (Nat.succ n) nextKey (some e) cache2
        (rest.1, rest.2.1,
          RunLog.append
            (RunLog.append log (attemptLog ⟨currentModelKey, JsResult.err e⟩))
            rest.2.2)

/-- lastError?.message of the source: an absent error reads as the string
undefined inside the template literal. -/
def optMsg : Option JsError → String
  | some e => e.message
  | none => "undefined"

/-- The aggregate error message raised when both stage one and the FINAL
attempt failed, carrying both underlying messages. -/
def exhaustedMessage (lastError : Option JsError) (finalError : JsError) : String :=
  "CRITICAL FAILURE: All strategies exhausted. Standard Retries Last Error: "
    ++ optMsg lastError ++ " Final Model Error: " ++ finalError.message

/-- executeResilientUpdate of the third revision: fetch the dynamic prompt
exactly once; on fetch failure abort with the critical-dependency error and
no LLM attempt; otherwise run stage one and, if it exhausts, one last
attempt against FINAL with the same prompt. -/
def executeResilientUpdate (w : World) (cache : Option String) : RunRecord :=
  match fetchRemotePrompt w 0 with
  | JsResult.err fetchErr =>
      ⟨RunOutcome.err
          ⟨none, "Critical Dependency Failure: Unable to fetch prompt. " ++ fetchErr.message⟩,
        cache, fetchLog⟩
  | JsResult.ok dynamicPrompt =>
    match stage1 w dynamicPrompt MAX_ATTEMPTS 0 "PRIMARY" none cache with
    | (Stage1Result.success modelKey content, cache2, log1) =>
        ⟨RunOutcome.ok modelKey content, cache2, RunLog.append fetchLog log1⟩
    | (Stage1Result.exhausted lastError, cache2, log1) =>
      match generateAndCacheContent w MAX_ATTEMPTS "FINAL" dynamicPrompt cache2 with
      | (JsResult.ok finalContent, cache3, log2) =>
          ⟨RunOutcome.ok "FINAL" finalContent, cache3,
            RunLog.append (RunLog.append fetchLog log1)
              (RunLog.append log2 (attemptLog ⟨"FINAL", JsResult.ok finalContent⟩))⟩
      | (JsResult.err finalError, cache3, log2) =>
          ⟨RunOutcome.err ⟨none, exhaustedMessage lastError finalError⟩, cache3,
            RunLog.append (RunLog.append fetchLog log1)
              (RunLog.append log2 (attemptLog ⟨"FINAL", JsResult.err finalError⟩))⟩

end V3

/-- An HTTP response as far as the claims observe it: status, body, and the
Content-Type header (none when the source sets no Content-Type beyond the
CORS headers, which are attached to every response and not modelled). -/
structure HttpResponse where
  status : Nat
  body : String
  contentType : Option String
deriving DecidableEq, Repr

/-- An incoming HTTP request as far as the update endpoint observes it. -/
structure Request where
  method : String
  authorization : Option String
deriving DecidableEq, Repr

/-- env.TEXT_CACHE.put under the fixed key: last write wins on the single
slot. -/
def kvPut (_cache : Option String) (text : String) : Option String :=
  some text

namespace IndexJs

/-- handle_get_text of index.js.  The argument is the awaited result of the
cache read under the fixed key: a thrown error gives the 500 branch; an
absent or empty value is falsy and gives the 503 placeholder; otherwise the
cached text plus one newline is returned with status 200. -/
def handle_get_text (kv : JsResult (Option String)) : HttpResponse :=
  match kv with
  | JsResult.err e =>
      ⟨500, "服务器内部错误: " ++ e.message ++ "\n", some "text/plain; charset=utf-8"⟩
  | JsResult.ok cached_text =>
    match cached_text with
    | some s =>
        if s = "" then
          ⟨503, "内容正在生成中，请稍后刷新重试。\n", some "text/plain; charset=utf-8"⟩
        else ⟨200, s ++ "\n", some "text/plain; charset=utf-8"⟩
    | none => ⟨503, "内容正在生成中，请稍后刷新重试。\n", some "text/plain; charset=utf-8"⟩

/-- Body of the success JSON of handle_force_update; the exact
JSON.stringify layout is abstracted into a plain concatenation. -/
def successJson (model_used new_content : String) : String :=
  "success: true, model_used: " ++ model_used ++ ", new_content: " ++ new_content

/-- Body of the failure JSON of handle_force_update. -/
def failureJson (message : String) : String :=
  "success: false, message: Failed to update after all retries: " ++ message

/-- handle_force_update of index.js: 405 for a non-POST method, 500 when
UPDATE_TOKEN is unset, 401 when the Authorization header is missing or not
of Bearer shape, 403 when the presented token mismatches, and otherwise the
awaited orchestrator run shapes a 200 or 500 JSON response.  Returns the
response together with the cache slot after the call. -/
def handle_force_update (w : World) (request : Request) (cache : Option String) :
    HttpResponse × Option String :=
  if request.method = "POST" then
    if jsTruthy w.env.UPDATE_TOKEN = false then
      (⟨500, "Server configuration error: Update token not set.\n", none⟩, cache)
    else
      if jsTruthy request.authorization = false
          ∨ jsStartsWith (request.authorization.getD "") "Bearer " = false then
        (⟨401, "Authorization header is missing or invalid.\n", none⟩, cache)
      else
        if (jsSplitSpace (request.authorization.getD "")).get? 1 = w.env.UPDATE_TOKEN then
          let r := run_update_with_retries w cache
          match r.outcome with
          | RunOutcome.ok model_used new_content =>
              (⟨200, successJson model_used new_content, some "application/json"⟩, r.cache)
          | RunOutcome.err e => (⟨500, failureJson e.message, some "application/json"⟩, r.cache)
          | RunOutcome.noResult => (⟨500, failureJson "undefined", some "application/json"⟩, r.cache)
        else (⟨403, "Forbidden: Invalid token.\n", none⟩, cache)
  else (⟨405, "Method Not Allowed. Please use POST.\n", none⟩, cache)

end IndexJs

namespace V3

/-- handleGetContent of the third revision.  A cache-read error is rethrown
and surfaces as the 500 of the top-level fetch handler, which attaches no
Content-Type. -/
def handleGetContent (kv : JsResult (Option String)) : HttpResponse :=
  match kv with
  | JsResult.err e =>
      ⟨500, "Internal Server Error: Cache retrieval failed: " ++ e.message ++ "\n", none⟩
  | JsResult.ok content =>
    match content with
    | some s =>
        if s = "" then
          ⟨503, "Service warming up, content is generating...\n", some "text/plain; charset=utf-8"⟩
        else ⟨200, s ++ "\n", some "text/plain; charset=utf-8"⟩
    | none => ⟨503, "Service warming up, content is generating...\n", some "text/plain; charset=utf-8"⟩

/-- Body of the success JSON of handleManualUpdate, abstracted like the
index.js one. -/
def successJson (model_used new_content : String) : String :=
  "success: true, model_used: " ++ model_used ++ ", new_content: " ++ new_content

/-- Body of the failure JSON of handleManualUpdate. -/
def failureJson (message : String) : String :=
  "success: false, message: Update failed after final attempt: " ++ message

/-- handleManualUpdate of the third revision: same guard cascade as
index.js with its own response texts. -/
def handleManualUpdate (w : World) (request : Request) (cache : Option String) :
    HttpResponse × Option String :=
  if request.method = "POST" then
    if jsTruthy w.env.UPDATE_TOKEN = false then
      (⟨500, "Server configuration error.\n", none⟩, cache)
    else
      if jsTruthy request.authorization = false
          ∨ jsStartsWith (request.authorization.getD "") "Bearer " = false then
        (⟨401, "Unauthorized: Missing or invalid Bearer token.\n", none⟩, cache)
      else
        if (jsSplitSpace (request.authorization.getD "")).get? 1 = w.env.UPDATE_TOKEN then
          let r := executeResilientUpdate w cache
          match r.outcome with
          | RunOutcome.ok model_used new_content =>
              (⟨200, successJson model_used new_content, some "application/json"⟩, r.cache)
          | RunOutcome.err e => (⟨500, failureJson e.message, some "application/json"⟩, r.cache)
          | RunOutcome.noResult => (⟨500, failureJson "undefined", some "application/json"⟩, r.cache)
        else (⟨403, "Forbidden: Invalid token.\n", none⟩, cache)
  else (⟨405, "Method Not Allowed. Use POST.\n", none⟩, cache)

end V3

/-- A world whose prompt source works and whose LLM endpoints always answer
404 (a status that triggers no escalation anywhere). -/
def wAllFail : World :=
  { env := { UPDATE_TOKEN := some "token", GEMINI_API_KEY := some "key",
             GITHUB_API_KEY := some "ghkey" }
    promptHttp := fun _ => FetchResp.ok "seed phrase"
    llmHttp := fun _ _ => LLMHttp.httpError 404 "" }

/-- A world whose prompt source always answers 503. -/
def wPrompt503 : World :=
  { env := { UPDATE_TOKEN := some "token", GEMINI_API_KEY := some "key",
             GITHUB_API_KEY := some "ghkey" }
    promptHttp := fun _ => FetchResp.httpError 503
    llmHttp := fun _ _ => LLMHttp.httpError 404 "" }

/-- A world whose first LLM call answers 429 and whose later LLM calls
answer 404. -/
def wFirst429 : World :=
  { env := { UPDATE_TOKEN := some "token", GEMINI_API_KEY := some "key",
             GITHUB_API_KEY := some "ghkey" }
    promptHttp := fun _ => FetchResp.ok "seed phrase"
    llmHttp := fun n _ =>
      if n = 0 then LLMHttp.httpError 429 "" else LLMHttp.httpError 404 "" }

/-- A world whose first LLM call answers 429 and whose second answers with
untrimmed generated text. -/
def wSucceed2 : World :=
  { env := { UPDATE_TOKEN := some "token", GEMINI_API_KEY := some "key",
             GITHUB_API_KEY := some "ghkey" }
    promptHttp := fun _ => FetchResp.ok "seed phrase"
    llmHttp := fun n _ =>
      if n = 0 then LLMHttp.httpError 429 ""
      else LLMHttp.ok (some " Generated Output ") none }

/-- A world whose update token is unset. -/
def wNoToken : World :=
  { env := { UPDATE_TOKEN := none, GEMINI_API_KEY := some "key",
             GITHUB_API_KEY := some "ghkey" }
    promptHttp := fun _ => FetchResp.ok "seed phrase"
    llmHttp := fun _ _ => LLMHttp.httpError 404 "" }

/-- The Authorization header is present, truthy and of Bearer shape, as
tested by the update handlers. -/
def bearerForm (h : Option String) : Bool :=
  jsTruthy h && jsStartsWith (h.getD "") "Bearer "

/-- The token a request presents to the update handlers: the second
space-separated chunk of the Authorization header, absent when there is no
such chunk. -/
def submittedToken (h : Option String) : Option String :=
  (jsSplitSpace (h.getD "")).get? 1

/- ------------------------------------------------------------------ -/
/- Theorems.                                                          -/
/- ------------------------------------------------------------------ -/

theorem runLog_append_promptFetches (a b : RunLog) :
    (RunLog.append a b).promptFetches = a.promptFetches + b.promptFetches := rfl

theorem runLog_append_invocations (a b : RunLog) :
    (RunLog.append a b).invocations = a.invocations ++ b.invocations := rfl

theorem runLog_append_attempts (a b : RunLog) :
    (RunLog.append a b).attempts = a.attempts ++ b.attempts := rfl

theorem runLog_append_cacheWrites (a b : RunLog) :
    (RunLog.append a b).cacheWrites = a.cacheWrites ++ b.cacheWrites := rfl

theorem map_model_replicate_of_all (x : String) :
    ∀ L : List Attempt, (L.all (fun a => a.model == x)) = true →
      L.map Attempt.model = List.replicate L.length x := by
  intro L
  induction L with
  | nil => intro _; rfl
  | cons a t ih =>
      intro h
      rw [List.all_cons, Bool.and_eq_true, beq_iff_eq] at h
      simp [List.replicate_succ, h.1, ih h.2]

theorem indexjs_update_kv_text_attempts (w : World) (n : Nat) (m : String) (c : Option String) :
    (IndexJs.update_kv_text w n m c).2.2.attempts = [] := by
  unfold IndexJs.update_kv_text
  split
  · rfl
  · split
    · rfl
    · rfl

theorem indexjs_retryLoop_zero (w : World) (n : Nat) (m : String) (c : Option String) :
    IndexJs.retryLoop w 0 n m c =
      (RunOutcome.err ⟨none, "All retry attempts failed. The content was not updated."⟩,
        c, emptyLog) := rfl

theorem indexjs_retryLoop_succ_ok (w : World) (rem n : Nat) (m : String) (c : Option String)
    (t : String) (c2 : Option String) (log : RunLog)
    (h : IndexJs.update_kv_text w n m c = (JsResult.ok t, c2, log)) :
    IndexJs.retryLoop w (Nat.succ rem) n m c =
      (RunOutcome.ok m t, c2, RunLog.append log (attemptLog ⟨m, JsResult.ok t⟩)) := by
  unfold IndexJs.retryLoop
  rw [h]

theorem indexjs_retryLoop_succ_err (w : World) (rem n : Nat) (m : String) (c : Option String)
    (e : JsError) (c2 : Option String) (log : RunLog)
    (h : IndexJs.update_kv_text w n m c = (JsResult.err e, c2, log)) :
    IndexJs.retryLoop w (Nat.succ rem) n m c =
      (let next :=
        if 0 < rem then
          if m = IndexJs.PRIMARY_MODEL ∧ e.statusCode = some 429 then IndexJs.FALLBACK_MODEL
          else m
        else m
       let rest := IndexJs.retryLoop w rem (Nat.succ n) next c2
       (rest.1, rest.2.1,
         RunLog.append (RunLog.append log (attemptLog ⟨m, JsResult.err e⟩)) rest.2.2)) := by
  conv_lhs => unfold IndexJs.retryLoop
  rw [h]

theorem indexjs_retryLoop_attempts_first (w : World) (fuel n : Nat) (m : String)
    (c : Option String) :
    ∀ a ∈ ((IndexJs.retryLoop w fuel n m c).2.2.attempts).head?, a.model = m := by
  cases fuel with
  | zero =>
      intro a ha
      rw [indexjs_retryLoop_zero] at ha
      simp [emptyLog] at ha
  | succ rem =>
      rcases h : IndexJs.update_kv_text w n m c with ⟨r, c2, log⟩
      have hl : log.attempts = [] := by
        have h2 := indexjs_update_kv_text_attempts w n m c
        rw [h] at h2
        exact h2
      cases r with
      | ok t =>
          rw [indexjs_retryLoop_succ_ok w rem n m c t c2 log h]
          intro a ha
          simp [runLog_append_attempts, attemptLog, hl] at ha
          rw [← ha]
      | err e =>
          rw [indexjs_retryLoop_succ_err w rem n m c e c2 log h]
          intro a ha
          simp [runLog_append_attempts, attemptLog, hl] at ha
          rw [← ha]

theorem indexjs_retryLoop_chain (w : World) :
    ∀ (fuel n : Nat) (m : String) (c : Option String),
    List.Chain'
      (fun a b => isFailure a = true ∧
        b.model = if a.model = IndexJs.PRIMARY_MODEL ∧ qualifies429 a = true
                  then IndexJs.FALLBACK_MODEL else a.model)
      ((IndexJs.retryLoop w fuel n m c).2.2.attempts) := by
  intro fuel
  induction fuel with
  | zero =>
      intro n m c
      rw [indexjs_retryLoop_zero]
      simp [emptyLog]
  | succ rem ih =>
      intro n m c
      rcases h : IndexJs.update_kv_text w n m c with ⟨r, c2, log⟩
      have hl : log.attempts = [] := by
        have h2 := indexjs_update_kv_text_attempts w n m c
        rw [h] at h2
        exact h2
      cases r with
      | ok t =>
          rw [indexjs_retryLoop_succ_ok w rem n m c t c2 log h]
          simp [runLog_append_attempts, attemptLog, hl]
      | err e =>
          rw [indexjs_retryLoop_succ_err w rem n m c e c2 log h]
          simp only [runLog_append_attempts, attemptLog, hl, List.nil_append, List.append_nil,
            List.singleton_append]
          refine List.chain'_cons'.mpr ⟨?_, ih (Nat.succ n) _ c2⟩
          intro b hb
          have hfirst := indexjs_retryLoop_attempts_first w rem (Nat.succ n)
            (if 0 < rem then
               if m = IndexJs.PRIMARY_MODEL ∧ e.statusCode = some 429 then IndexJs.FALLBACK_MODEL
               else m
             else m) c2 b hb
          constructor
          · rfl
          · rw [hfirst]
            rcases Nat.eq_zero_or_pos rem with h0 | hpos
            · subst h0
              rw [indexjs_retryLoop_zero] at hb
              simp [emptyLog] at hb
            · rw [if_pos hpos]
              by_cases hc : m = IndexJs.PRIMARY_MODEL ∧ e.statusCode = some 429
              · rw [if_pos hc, if_pos]
                refine ⟨hc.1, ?_⟩
                simp [qualifies429, hc.2]
              · rw [if_neg hc, if_neg]
                intro hc2
                exact hc ⟨hc2.1, by simpa [qualifies429] using hc2.2⟩

theorem indexjs_retryLoop_stable (w : World) :
    ∀ (fuel n : Nat) (m : String) (c : Option String),
    ((IndexJs.retryLoop w fuel n m c).2.2.attempts.all nonQualifyingFailure) = true →
    (IndexJs.retryLoop w fuel n m c).2.2.attempts.length = fuel ∧
    ((IndexJs.retryLoop w fuel n m c).2.2.attempts.all (fun a => a.model == m)) = true := by
  intro fuel
  induction fuel with
  | zero =>
      intro n m c _
      rw [indexjs_retryLoop_zero]
      simp [emptyLog]
  | succ rem ih =>
      intro n m c hall
      rcases h : IndexJs.update_kv_text w n m c with ⟨r, c2, log⟩
      have hl : log.attempts = [] := by
        have h2 := indexjs_update_kv_text_attempts w n m c
        rw [h] at h2
        exact h2
      cases r with
      | ok t =>
          rw [indexjs_retryLoop_succ_ok w rem n m c t c2 log h] at hall
          simp [runLog_append_attempts, attemptLog, hl, nonQualifyingFailure, isFailure] at hall
      | err e =>
          rw [indexjs_retryLoop_succ_err w rem n m c e c2 log h] at hall ⊢
          simp only [runLog_append_attempts, attemptLog, hl, List.nil_append, List.append_nil,
            List.singleton_append, List.all_cons, Bool.and_eq_true, List.length_cons] at hall ⊢
          obtain ⟨h1, h2⟩ := hall
          have hne : ¬(m = IndexJs.PRIMARY_MODEL ∧ e.statusCode = some 429) := by
            intro hc
            simp [nonQualifyingFailure, qualifies429, isFailure, hc.2] at h1
          simp only [hne, if_false, ite_self, if_neg] at h2 ⊢
          obtain ⟨hlen, hmods⟩ := ih (Nat.succ n) m c2 h2
          refine ⟨by rw [hlen], ?_, hmods⟩
          simp

theorem indexjs_retryLoop_fallback_locked (w : World) :
    ∀ (fuel n : Nat) (c : Option String),
    ((IndexJs.retryLoop w fuel n IndexJs.FALLBACK_MODEL c).2.2.attempts.all
      (fun a => a.model == IndexJs.FALLBACK_MODEL)) = true := by
  intro fuel
  induction fuel with
  | zero =>
      intro n c
      rw [indexjs_retryLoop_zero]
      simp [emptyLog]
  | succ rem ih =>
      intro n c
      rcases h : IndexJs.update_kv_text w n IndexJs.FALLBACK_MODEL c with ⟨r, c2, log⟩
      have hl : log.attempts = [] := by
        have h2 := indexjs_update_kv_text_attempts w n IndexJs.FALLBACK_MODEL c
        rw [h] at h2
        exact h2
      cases r with
      | ok t =>
          rw [indexjs_retryLoop_succ_ok w rem n IndexJs.FALLBACK_MODEL c t c2 log h]
          simp [runLog_append_attempts, attemptLog, hl]
      | err e =>
          rw [indexjs_retryLoop_succ_err w rem n IndexJs.FALLBACK_MODEL c e c2 log h]
          have hne : (IndexJs.FALLBACK_MODEL = IndexJs.PRIMARY_MODEL) = False := by
            simp [IndexJs.FALLBACK_MODEL, IndexJs.PRIMARY_MODEL]
          simp [runLog_append_attempts, attemptLog, hl, hne, ite_self]
          simpa using ih (Nat.succ n) c2

theorem indexjs_retryLoop_shape (w : World) :
    ∀ (fuel n : Nat) (c : Option String),
    ∃ p f, ((IndexJs.retryLoop w fuel n IndexJs.PRIMARY_MODEL c).2.2.attempts.map Attempt.model)
      = List.replicate p IndexJs.PRIMARY_MODEL ++ List.replicate f IndexJs.FALLBACK_MODEL := by
  intro fuel
  induction fuel with
  | zero =>
      intro n c
      refine ⟨0, 0, ?_⟩
      rw [indexjs_retryLoop_zero]
      simp [emptyLog]
  | succ rem ih =>
      intro n c
      rcases h : IndexJs.update_kv_text w n IndexJs.PRIMARY_MODEL c with ⟨r, c2, log⟩
      have hl : log.attempts = [] := by
        have h2 := indexjs_update_kv_text_attempts w n IndexJs.PRIMARY_MODEL c
        rw [h] at h2
        exact h2
      cases r with
      | ok t =>
          refine ⟨1, 0, ?_⟩
          rw [indexjs_retryLoop_succ_ok w rem n IndexJs.PRIMARY_MODEL c t c2 log h]
          simp [runLog_append_attempts, attemptLog, hl]
      | err e =>
          rw [indexjs_retryLoop_succ_err w rem n IndexJs.PRIMARY_MODEL c e c2 log h]
          by_cases hc : e.statusCode = some 429
          · rcases Nat.eq_zero_or_pos rem with h0 | hpos
            · subst h0
              refine ⟨1, 0, ?_⟩
              simp [runLog_append_attempts, attemptLog, hl, emptyLog, indexjs_retryLoop_zero]
            · have hall := indexjs_retryLoop_fallback_locked w rem (Nat.succ n) c2
              refine ⟨1,
                (IndexJs.retryLoop w rem (Nat.succ n) IndexJs.FALLBACK_MODEL c2).2.2.attempts.length,
                ?_⟩
              simp [runLog_append_attempts, attemptLog, hl, hc, hpos,
                map_model_replicate_of_all _ _ hall, List.replicate_succ]
          · obtain ⟨p, f, hpf⟩ := ih (Nat.succ n) c2
            refine ⟨Nat.succ p, f, ?_⟩
            simp [runLog_append_attempts, attemptLog, hl, hc, ite_self, hpf, List.replicate_succ]

theorem indexjs_retryLoop_first_429_locks (w : World) :
    ∀ (fuel n : Nat) (c : Option String) (a : Attempt),
    ((IndexJs.retryLoop w fuel n IndexJs.PRIMARY_MODEL c).2.2.attempts).head? = some a →
    qualifies429 a = true →
    (((IndexJs.retryLoop w fuel n IndexJs.PRIMARY_MODEL c).2.2.attempts).tail.all
      (fun b => b.model == IndexJs.FALLBACK_MODEL)) = true := by
  intro fuel
  induction fuel with
  | zero =>
      intro n c a ha _
      rw [indexjs_retryLoop_zero] at ha
      simp [emptyLog] at ha
  | succ rem _ih =>
      intro n c a ha h429
      rcases h : IndexJs.update_kv_text w n IndexJs.PRIMARY_MODEL c with ⟨r, c2, log⟩
      have hl : log.attempts = [] := by
        have h2 := indexjs_update_kv_text_attempts w n IndexJs.PRIMARY_MODEL c
        rw [h] at h2
        exact h2
      cases r with
      | ok t =>
          rw [indexjs_retryLoop_succ_ok w rem n IndexJs.PRIMARY_MODEL c t c2 log h] at ha
          simp [runLog_append_attempts, attemptLog, hl] at ha
          rw [← ha] at h429
          simp [qualifies429] at h429
      | err e =>
          rw [indexjs_retryLoop_succ_err w rem n IndexJs.PRIMARY_MODEL c e c2 log h] at ha ⊢
          simp only [runLog_append_attempts, attemptLog, hl, List.nil_append, List.append_nil,
            List.singleton_append, List.head?_cons, Option.some.injEq] at ha
          rw [← ha] at h429
          have he : e.statusCode = some 429 := by
            simpa [qualifies429] using h429
          rcases Nat.eq_zero_or_pos rem with h0 | hpos
          · subst h0
            simp only [runLog_append_attempts, attemptLog, hl, List.nil_append, List.append_nil,
              List.singleton_append, List.tail_cons]
            rw [indexjs_retryLoop_zero]
            simp [emptyLog]
          · have hall := indexjs_retryLoop_fallback_locked w rem (Nat.succ n) c2
            simp [runLog_append_attempts, attemptLog, hl, he, hpos, hall]

theorem v2_generateAndCacheContent_attempts (w : World) (n : Nat) (k : String)
    (c : Option String) : (V2.generateAndCacheContent w n k c).2.2.attempts = [] := by
  unfold V2.generateAndCacheContent
  split
  · rfl
  · split
    · rfl
    · split
      · rfl
      · rfl

theorem v2_updateLoop_zero (w : World) (n : Nat) (k : String) (c : Option String) :
    V2.updateLoop w 0 n k c = (RunOutcome.noResult, c, emptyLog) := rfl

theorem v2_updateLoop_succ_ok (w : World) (rem n : Nat) (k : String) (c : Option String)
    (t : String) (c2 : Option String) (log : RunLog)
    (h : V2.generateAndCacheContent w n k c = (JsResult.ok t, c2, log)) :
    V2.updateLoop w (Nat.succ rem) n k c =
      (RunOutcome.ok k t, c2, RunLog.append log (attemptLog ⟨k, JsResult.ok t⟩)) := by
  conv_lhs => unfold V2.updateLoop
  rw [h]

theorem v2_updateLoop_succ_err (w : World) (rem n : Nat) (k : String) (c : Option String)
    (e : JsError) (c2 : Option String) (log : RunLog)
    (h : V2.generateAndCacheContent w n k c = (JsResult.err e, c2, log)) :
    V2.updateLoop w (Nat.succ rem) n k c =
      (let logA := RunLog.append log (attemptLog ⟨k, JsResult.err e⟩)
       if rem = 0 then
         (RunOutcome.err ⟨none,
            "Failed to update content after " ++ toString V2.MAX_ATTEMPTS
              ++ " attempts. Last error: " ++ e.message⟩, c2, logA)
       else
         let nextKey :=
           if k = "PRIMARY" ∧ (e.statusCode = some 429 ∨ statusGe500Opt e.statusCode = true) then
             "FALLBACK"
           else k
         let rest := V2.updateLoop w rem (Nat.succ n) nextKey c2
         (rest.1, rest.2.1, RunLog.append logA rest.2.2)) := by
  conv_lhs => unfold V2.updateLoop
  rw [h]

theorem v2_updateLoop_attempts_first (w : World) :
    ∀ (fuel n : Nat) (k : String) (c : Option String),
    ∀ a ∈ ((V2.updateLoop w fuel n k c).2.2.attempts).head?, a.model = k := by
  intro fuel
  induction fuel with
  | zero =>
      intro n k c a ha
      rw [v2_updateLoop_zero] at ha
      simp [emptyLog] at ha
  | succ rem _ih =>
      intro n k c a ha
      rcases h : V2.generateAndCacheContent w n k c with ⟨r, c2, log⟩
      have hl : log.attempts = [] := by
        have h2 := v2_generateAndCacheContent_attempts w n k c
        rw [h] at h2
        exact h2
      cases r with
      | ok t =>
          rw [v2_updateLoop_succ_ok w rem n k c t c2 log h] at ha
          simp [runLog_append_attempts, attemptLog, hl] at ha
          rw [← ha]
      | err e =>
          rw [v2_updateLoop_succ_err w rem n k c e c2 log h] at ha
          rcases Nat.eq_zero_or_pos rem with h0 | hpos
          · subst h0
            simp [runLog_append_attempts, attemptLog, hl] at ha
            rw [← ha]
          · have hne : (rem = 0) = False := by simp [Nat.pos_iff_ne_zero.mp hpos]
            simp [runLog_append_attempts, attemptLog, hl, hne] at ha
            rw [← ha]

theorem v2_updateLoop_chain (w : World) :
    ∀ (fuel n : Nat) (k : String) (c : Option String),
    List.Chain'
      (fun a b => isFailure a = true ∧
        b.model = if a.model = "PRIMARY" ∧ (qualifies429 a = true ∨ qualifies5xx a = true)
                  then "FALLBACK" else a.model)
      ((V2.updateLoop w fuel n k c).2.2.attempts) := by
  intro fuel
  induction fuel with
  | zero =>
      intro n k c
      rw [v2_updateLoop_zero]
      simp [emptyLog]
  | succ rem ih =>
      intro n k c
      rcases h : V2.generateAndCacheContent w n k c with ⟨r, c2, log⟩
      have hl : log.attempts = [] := by
        have h2 := v2_generateAndCacheContent_attempts w n k c
        rw [h] at h2
        exact h2
      cases r with
      | ok t =>
          rw [v2_updateLoop_succ_ok w rem n k c t c2 log h]
          simp [runLog_append_attempts, attemptLog, hl]
      | err e =>
          rw [v2_updateLoop_succ_err w rem n k c e c2 log h]
          rcases Nat.eq_zero_or_pos rem with h0 | hpos
          · subst h0
            simp [runLog_append_attempts, attemptLog, hl]
          · have hne : (rem = 0) = False := by simp [Nat.pos_iff_ne_zero.mp hpos]
            simp only [hne, if_false, runLog_append_attempts, attemptLog, hl, List.nil_append,
              List.append_nil, List.singleton_append]
            refine List.chain'_cons'.mpr ⟨?_, ih (Nat.succ n) _ c2⟩
            intro b hb
            have hfirst := v2_updateLoop_attempts_first w rem (Nat.succ n)
              (if k = "PRIMARY" ∧ (e.statusCode = some 429 ∨ statusGe500Opt e.statusCode = true)
               then "FALLBACK" else k) c2 b hb
            refine ⟨rfl, ?_⟩
            rw [hfirst]
            by_cases hck : k = "PRIMARY" ∧ (e.statusCode = some 429 ∨ statusGe500Opt e.statusCode = true)
            · rw [if_pos hck, if_pos]
              refine ⟨hck.1, ?_⟩
              rcases hck.2 with h429 | h5xx
              · exact Or.inl (by simp [qualifies429, h429])
              · exact Or.inr (by simp [qualifies5xx, h5xx])
            · rw [if_neg hck, if_neg]
              intro hc2
              refine hck ⟨hc2.1, ?_⟩
              rcases hc2.2 with h429 | h5xx
              · exact Or.inl (by simpa [qualifies429] using h429)
              · exact Or.inr (by simpa [qualifies5xx] using h5xx)

theorem v2_updateLoop_stable (w : World) :
    ∀ (fuel n : Nat) (k : String) (c : Option String),
    ((V2.updateLoop w fuel n k c).2.2.attempts.all nonQualifyingFailure) = true →
    (V2.updateLoop w fuel n k c).2.2.attempts.length = fuel ∧
    ((V2.updateLoop w fuel n k c).2.2.attempts.all (fun a => a.model == k)) = true := by
  intro fuel
  induction fuel with
  | zero =>
      intro n k c _
      rw [v2_updateLoop_zero]
      simp [emptyLog]
  | succ rem ih =>
      intro n k c hall
      rcases h : V2.generateAndCacheContent w n k c with ⟨r, c2, log⟩
      have hl : log.attempts = [] := by
        have h2 := v2_generateAndCacheContent_attempts w n k c
        rw [h] at h2
        exact h2
      cases r with
      | ok t =>
          rw [v2_updateLoop_succ_ok w rem n k c t c2 log h] at hall
          simp [runLog_append_attempts, attemptLog, hl, nonQualifyingFailure, isFailure] at hall
      | err e =>
          rw [v2_updateLoop_succ_err w rem n k c e c2 log h] at hall ⊢
          rcases Nat.eq_zero_or_pos rem with h0 | hpos
          · subst h0
            simp [runLog_append_attempts, attemptLog, hl]
          · have hne : (rem = 0) = False := by simp [Nat.pos_iff_ne_zero.mp hpos]
            simp only [hne, if_false, runLog_append_attempts, attemptLog, hl, List.nil_append,
              List.append_nil, List.singleton_append, List.all_cons, Bool.and_eq_true,
              List.length_cons] at hall ⊢
            obtain ⟨h1, h2⟩ := hall
            have hnq : ¬(k = "PRIMARY" ∧ (e.statusCode = some 429 ∨ statusGe500Opt e.statusCode = true)) := by
              intro hc
              rcases hc.2 with h429 | h5xx
              · simp [nonQualifyingFailure, qualifies429, isFailure, h429] at h1
              · simp [nonQualifyingFailure, qualifies5xx, isFailure, h5xx] at h1
            simp only [hnq, if_false, if_neg] at h2 ⊢
            obtain ⟨hlen, hmods⟩ := ih (Nat.succ n) k c2 h2
            refine ⟨by rw [hlen], ?_, hmods⟩
            simp

theorem v2_updateLoop_terminal (w : World) :
    ∀ (fuel : Nat), 0 < fuel → ∀ (n : Nat) (k : String) (c : Option String),
    isTerminal (V2.updateLoop w fuel n k c).1 = true := by
  intro fuel
  induction fuel with
  | zero => intro hf; exact absurd hf (by simp)
  | succ rem ih =>
      intro _ n k c
      rcases h : V2.generateAndCacheContent w n k c with ⟨r, c2, log⟩
      cases r with
      | ok t =>
          rw [v2_updateLoop_succ_ok w rem n k c t c2 log h]
          rfl
      | err e =>
          rw [v2_updateLoop_succ_err w rem n k c e c2 log h]
          rcases Nat.eq_zero_or_pos rem with h0 | hpos
          · subst h0
            rfl
          · have hne : (rem = 0) = False := by simp [Nat.pos_iff_ne_zero.mp hpos]
            simp only [hne, if_false]
            exact ih hpos (Nat.succ n) _ c2

theorem indexjs_retryLoop_terminal (w : World) :
    ∀ (fuel n : Nat) (m : String) (c : Option String),
    isTerminal (IndexJs.retryLoop w fuel n m c).1 = true := by
  intro fuel
  induction fuel with
  | zero =>
      intro n m c
      rw [indexjs_retryLoop_zero]
      rfl
  | succ rem ih =>
      intro n m c
      rcases h : IndexJs.update_kv_text w n m c with ⟨r, c2, log⟩
      cases r with
      | ok t =>
          rw [indexjs_retryLoop_succ_ok w rem n m c t c2 log h]
          rfl
      | err e =>
          rw [indexjs_retryLoop_succ_err w rem n m c e c2 log h]
          exact ih (Nat.succ n) _ c2

theorem call_api_ok {w : World} {n : Nat} {cfg : ModelConfig} {k sys uf ud t : String}
    (h : callOpenAIStyleAPI w n cfg k sys uf ud = JsResult.ok t) :
    ∃ cc fr, w.llmHttp n k = LLMHttp.ok (some cc) fr ∧ t = jsTrim cc := by
  unfold callOpenAIStyleAPI at h
  by_cases hkey : jsTruthy (envLookup w.env cfg.apiKeyEnv) = false
  · rw [if_pos hkey] at h
    exact absurd h (by simp)
  · rw [if_neg hkey] at h
    rcases hllm : w.llmHttp n k with ⟨status, body⟩ | ⟨content, finishReason⟩
    · rw [hllm] at h
      simp at h
    · rw [hllm] at h
      cases content with
      | none => simp at h
      | some s =>
          by_cases hs : s = ""
          · simp only [hs, if_pos] at h
            simp at h
          · simp only [hs, if_neg, if_false] at h
            refine ⟨s, finishReason, rfl, ?_⟩
            simpa using h.symm

theorem v3_genCC_ok (w : World) (n : Nat) (k dyn : String) (c : Option String)
    (t : String) (c2 : Option String) (log : RunLog)
    (h : V3.generateAndCacheContent w n k dyn c = (JsResult.ok t, c2, log)) :
    c2 = some t ∧ log = RunLog.append (invokeLog k dyn) (putLog t) ∧
      ∃ cc fr, w.llmHttp n k = LLMHttp.ok (some cc) fr ∧ t = jsTrim cc := by
  unfold V3.generateAndCacheContent at h
  split at h
  · simp at h
  · split at h
    · simp at h
    · rename_i u hcall
      simp only [Prod.mk.injEq] at h
      obtain ⟨h1, hc2, hlog⟩ := h
      obtain rfl : u = t := by simpa using h1
      exact ⟨hc2.symm, hlog.symm, call_api_ok hcall⟩

theorem v3_genCC_err (w : World) (n : Nat) (k dyn : String) (c : Option String)
    (e : JsError) (c2 : Option String) (log : RunLog)
    (h : V3.generateAndCacheContent w n k dyn c = (JsResult.err e, c2, log)) :
    c2 = c ∧ log.cacheWrites = [] ∧ log.attempts = [] ∧ log.promptFetches = 0 ∧
      (log.invocations = [] ∨ log.invocations = [⟨k, dyn⟩]) := by
  unfold V3.generateAndCacheContent at h
  split at h
  · simp only [Prod.mk.injEq] at h
    obtain ⟨-, hc2, hlog⟩ := h
    subst hlog
    exact ⟨hc2.symm, rfl, rfl, rfl, Or.inl rfl⟩
  · split at h
    · simp only [Prod.mk.injEq] at h
      obtain ⟨-, hc2, hlog⟩ := h
      subst hlog
      exact ⟨hc2.symm, rfl, rfl, rfl, Or.inr rfl⟩
    · simp at h

theorem v3_genCC_valid_invocations (w : World) (n : Nat) (k dyn : String) (c : Option String)
    (hk : k = "PRIMARY" ∨ k = "FALLBACK" ∨ k = "FINAL") :
    (V3.generateAndCacheContent w n k dyn c).2.2.invocations = [⟨k, dyn⟩] := by
  unfold V3.generateAndCacheContent
  split
  · rename_i hreg
    rcases hk with rfl | rfl | rfl <;> simp [V3.MODEL_REGISTRY] at hreg
  · split
    · simp [invokeLog]
    · simp [runLog_append_invocations, invokeLog, putLog]

theorem v3_stage1_zero (w : World) (dyn : String) (n : Nat) (k : String) (le : Option JsError)
    (c : Option String) :
    V3.stage1 w dyn 0 n k le c = (V3.Stage1Result.exhausted le, c, emptyLog) := rfl

theorem v3_stage1_succ_ok (w : World) (dyn : String) (rem n : Nat) (k : String)
    (le : Option JsError) (c : Option String) (t : String) (c2 : Option String) (log : RunLog)
    (h : V3.generateAndCacheContent w n k dyn c = (JsResult.ok t, c2, log)) :
    V3.stage1 w dyn (Nat.succ rem) n k le c =
      (V3.Stage1Result.success k t, c2, RunLog.append log (attemptLog ⟨k, JsResult.ok t⟩)) := by
  conv_lhs => unfold V3.stage1
  rw [h]

theorem v3_stage1_succ_err (w : World) (dyn : String) (rem n : Nat) (k : String)
    (le : Option JsError) (c : Option String) (e : JsError) (c2 : Option String) (log : RunLog)
    (h : V3.generateAndCacheContent w n k dyn c = (JsResult.err e, c2, log)) :
    V3.stage1 w dyn (Nat.succ rem) n k le c =
      ((V3.stage1 w dyn rem (Nat.succ n)
          (if k = "PRIMARY" ∧ e.statusCode = some 429 then "FALLBACK" else k) (some e) c2).1,
       (V3.stage1 w dyn rem (Nat.succ n)
          (if k = "PRIMARY" ∧ e.statusCode = some 429 then "FALLBACK" else k) (some e) c2).2.1,
       RunLog.append (RunLog.append log (attemptLog ⟨k, JsResult.err e⟩))
         (V3.stage1 w dyn rem (Nat.succ n)
            (if k = "PRIMARY" ∧ e.statusCode = some 429 then "FALLBACK" else k) (some e) c2).2.2) := by
  conv_lhs => unfold V3.stage1
  rw [h]

theorem v3_stage1_fetch_free (w : World) (dyn : String) :
    ∀ (fuel n : Nat) (k : String) (le : Option JsError) (c : Option String),
    (V3.stage1 w dyn fuel n k le c).2.2.promptFetches = 0 ∧
    ((V3.stage1 w dyn fuel n k le c).2.2.invocations.all (fun i => i.prompt == dyn)) = true := by
  intro fuel
  induction fuel with
  | zero =>
      intro n k le c
      rw [v3_stage1_zero]
      simp [emptyLog]
  | succ rem ih =>
      intro n k le c
      rcases h : V3.generateAndCacheContent w n k dyn c with ⟨r, c2, log⟩
      cases r with
      | ok t =>
          rw [v3_stage1_succ_ok w dyn rem n k le c t c2 log h]
          obtain ⟨-, hlog, -⟩ := v3_genCC_ok w n k dyn c t c2 log h
          subst hlog
          simp [runLog_append_promptFetches, runLog_append_invocations, attemptLog, invokeLog,
            putLog, RunLog.append]
      | err e =>
          rw [v3_stage1_succ_err w dyn rem n k le c e c2 log h]
          obtain ⟨-, -, -, hpf, hinv⟩ := v3_genCC_err w n k dyn c e c2 log h
          obtain ⟨ih1, ih2⟩ := ih (Nat.succ n)
            (if k = "PRIMARY" ∧ e.statusCode = some 429 then "FALLBACK" else k) (some e) c2
          rcases hinv with hinv | hinv <;>
            simp [runLog_append_promptFetches, runLog_append_invocations, attemptLog, hpf, hinv,
              ih1, ih2]

theorem v3_stage1_attempts_first (w : World) (dyn : String) :
    ∀ (fuel n : Nat) (k : String) (le : Option JsError) (c : Option String),
    ∀ a ∈ ((V3.stage1 w dyn fuel n k le c).2.2.attempts).head?, a.model = k := by
  intro fuel
  induction fuel with
  | zero =>
      intro n k le c a ha
      rw [v3_stage1_zero] at ha
      simp [emptyLog] at ha
  | succ rem _ih =>
      intro n k le c a ha
      rcases h : V3.generateAndCacheContent w n k dyn c with ⟨r, c2, log⟩
      have hl : log.attempts = [] := by
        cases r with
        | ok t =>
            obtain ⟨-, hlog, -⟩ := v3_genCC_ok w n k dyn c t c2 log h
            subst hlog
            rfl
        | err e => exact (v3_genCC_err w n k dyn c e c2 log h).2.2.1
      cases r with
      | ok t =>
          rw [v3_stage1_succ_ok w dyn rem n k le c t c2 log h] at ha
          simp [runLog_append_attempts, attemptLog, hl] at ha
          rw [← ha]
      | err e =>
          rw [v3_stage1_succ_err w dyn rem n k le c e c2 log h] at ha
          simp [runLog_append_attempts, attemptLog, hl] at ha
          rw [← ha]

theorem v3_stage1_fallback_locked (w : World) (dyn : String) :
    ∀ (fuel n : Nat) (le : Option JsError) (c : Option String),
    ((V3.stage1 w dyn fuel n "FALLBACK" le c).2.2.attempts.all
      (fun a => a.model == "FALLBACK")) = true := by
  intro fuel
  induction fuel with
  | zero =>
      intro n le c
      rw [v3_stage1_zero]
      simp [emptyLog]
  | succ rem ih =>
      intro n le c
      rcases h : V3.generateAndCacheContent w n "FALLBACK" dyn c with ⟨r, c2, log⟩
      have hl : log.attempts = [] := by
        cases r with
        | ok t =>
            obtain ⟨-, hlog, -⟩ := v3_genCC_ok w n "FALLBACK" dyn c t c2 log h
            subst hlog
            rfl
        | err e => exact (v3_genCC_err w n "FALLBACK" dyn c e c2 log h).2.2.1
      cases r with
      | ok t =>
          rw [v3_stage1_succ_ok w dyn rem n "FALLBACK" le c t c2 log h]
          simp [runLog_append_attempts, attemptLog, hl]
      | err e =>
          rw [v3_stage1_succ_err w dyn rem n "FALLBACK" le c e c2 log h]
          have hne : (("FALLBACK" : String) = "PRIMARY") = False := by simp
          simp [runLog_append_attempts, attemptLog, hl, hne]
          simpa using ih (Nat.succ n) (some e) c2

theorem v3_stage1_shape (w : World) (dyn : String) :
    ∀ (fuel n : Nat) (le : Option JsError) (c : Option String),
    ∃ p f, ((V3.stage1 w dyn fuel n "PRIMARY" le c).2.2.attempts.map Attempt.model)
      = List.replicate p "PRIMARY" ++ List.replicate f "FALLBACK" := by
  intro fuel
  induction fuel with
  | zero =>
      intro n le c
      refine ⟨0, 0, ?_⟩
      rw [v3_stage1_zero]
      simp [emptyLog]
  | succ rem ih =>
      intro n le c
      rcases h : V3.generateAndCacheContent w n "PRIMARY" dyn c with ⟨r, c2, log⟩
      have hl : log.attempts = [] := by
        cases r with
        | ok t =>
            obtain ⟨-, hlog, -⟩ := v3_genCC_ok w n "PRIMARY" dyn c t c2 log h
            subst hlog
            rfl
        | err e => exact (v3_genCC_err w n "PRIMARY" dyn c e c2 log h).2.2.1
      cases r with
      | ok t =>
          refine ⟨1, 0, ?_⟩
          rw [v3_stage1_succ_ok w dyn rem n "PRIMARY" le c t c2 log h]
          simp [runLog_append_attempts, attemptLog, hl]
      | err e =>
          rw [v3_stage1_succ_err w dyn rem n "PRIMARY" le c e c2 log h]
          by_cases hc : e.statusCode = some 429
          · have hall := v3_stage1_fallback_locked w dyn rem (Nat.succ n) (some e) c2
            refine ⟨1,
              (V3.stage1 w dyn rem (Nat.succ n) "FALLBACK" (some e) c2).2.2.attempts.length, ?_⟩
            simp [runLog_append_attempts, attemptLog, hl, hc,
              map_model_replicate_of_all _ _ hall, List.replicate_succ]
          · obtain ⟨p, f, hpf⟩ := ih (Nat.succ n) (some e) c2
            refine ⟨Nat.succ p, f, ?_⟩
            simp [runLog_append_attempts, attemptLog, hl, hc, hpf, List.replicate_succ]

theorem v3_stage1_first_429_locks (w : World) (dyn : String) :
    ∀ (fuel n : Nat) (le : Option JsError) (c : Option String) (a : Attempt),
    ((V3.stage1 w dyn fuel n "PRIMARY" le c).2.2.attempts).head? = some a →
    qualifies429 a = true →
    (((V3.stage1 w dyn fuel n "PRIMARY" le c).2.2.attempts).tail.all
      (fun b => b.model == "FALLBACK")) = true := by
  intro fuel
  induction fuel with
  | zero =>
      intro n le c a ha _
      rw [v3_stage1_zero] at ha
      simp [emptyLog] at ha
  | succ rem _ih =>
      intro n le c a ha h429
      rcases h : V3.generateAndCacheContent w n "PRIMARY" dyn c with ⟨r, c2, log⟩
      have hl : log.attempts = [] := by
        cases r with
        | ok t =>
            obtain ⟨-, hlog, -⟩ := v3_genCC_ok w n "PRIMARY" dyn c t c2 log h
            subst hlog
            rfl
        | err e => exact (v3_genCC_err w n "PRIMARY" dyn c e c2 log h).2.2.1
      cases r with
      | ok t =>
          rw [v3_stage1_succ_ok w dyn rem n "PRIMARY" le c t c2 log h] at ha
          simp [runLog_append_attempts, attemptLog, hl] at ha
          rw [← ha] at h429
          simp [qualifies429] at h429
      | err e =>
          rw [v3_stage1_succ_err w dyn rem n "PRIMARY" le c e c2 log h] at ha ⊢
          simp only [runLog_append_attempts, attemptLog, hl, List.nil_append, List.append_nil,
            List.singleton_append, List.head?_cons, Option.some.injEq] at ha
          rw [← ha] at h429
          have he : e.statusCode = some 429 := by
            simpa [qualifies429] using h429
          have hall := v3_stage1_fallback_locked w dyn rem (Nat.succ n) (some e) c2
          simp [runLog_append_attempts, attemptLog, hl, he, hall]

theorem v3_stage1_exhausted (w : World) (dyn : String) :
    ∀ (fuel n : Nat) (k : String) (le : Option JsError) (c : Option String)
      (le2 : Option JsError) (c2 : Option String) (log : RunLog),
    (k = "PRIMARY" ∨ k = "FALLBACK") →
    V3.stage1 w dyn fuel n k le c = (V3.Stage1Result.exhausted le2, c2, log) →
    c2 = c ∧ log.cacheWrites = [] ∧ log.attempts.length = fuel ∧
      (log.attempts.all isFailure) = true ∧ log.invocations.length = fuel ∧
      ((log.invocations.all (fun i => i.model == "PRIMARY" || i.model == "FALLBACK"))) = true := by
  intro fuel
  induction fuel with
  | zero =>
      intro n k le c le2 c2 log _hk h
      rw [v3_stage1_zero] at h
      simp only [Prod.mk.injEq] at h
      obtain ⟨-, hc2, hlog⟩ := h
      subst hlog
      exact ⟨hc2.symm, rfl, rfl, rfl, rfl, rfl⟩
  | succ rem ih =>
      intro n k le c le2 c2 log hk h
      rcases h0 : V3.generateAndCacheContent w n k dyn c with ⟨r, cA, logA⟩
      cases r with
      | ok t =>
          rw [v3_stage1_succ_ok w dyn rem n k le c t cA logA h0] at h
          simp at h
      | err e =>
          rw [v3_stage1_succ_err w dyn rem n k le c e cA logA h0] at h
          rcases hrest : V3.stage1 w dyn rem (Nat.succ n)
              (if k = "PRIMARY" ∧ e.statusCode = some 429 then "FALLBACK" else k) (some e) cA
            with ⟨res2, cB, logB⟩
          rw [hrest] at h
          simp only [Prod.mk.injEq] at h
          obtain ⟨hres, hcB, hlog⟩ := h
          subst hres
          have hknext : (if k = "PRIMARY" ∧ e.statusCode = some 429 then "FALLBACK" else k)
              = "PRIMARY" ∨
              (if k = "PRIMARY" ∧ e.statusCode = some 429 then "FALLBACK" else k) = "FALLBACK" := by
            by_cases hc : k = "PRIMARY" ∧ e.statusCode = some 429
            · rw [if_pos hc]
              exact Or.inr rfl
            · rw [if_neg hc]
              exact hk
          obtain ⟨hcBa, hcw, hlen, hfail, hilen, himod⟩ :=
            ih (Nat.succ n) _ (some e) cA le2 cB logB hknext hrest
          obtain ⟨hcAc, hcwA, haA, -, -⟩ := v3_genCC_err w n k dyn c e cA logA h0
          have hinvA : logA.invocations = [⟨k, dyn⟩] := by
            have h3 := v3_genCC_valid_invocations w n k dyn c
              (by rcases hk with hk1 | hk1 <;> [exact Or.inl hk1; exact Or.inr (Or.inl hk1)])
            rw [h0] at h3
            exact h3
          subst hlog
          refine ⟨by rw [← hcB, hcBa, hcAc], ?_, ?_, ?_, ?_, ?_⟩
          · simp [runLog_append_cacheWrites, attemptLog, hcwA, hcw]
          · simp [runLog_append_attempts, attemptLog, haA, hlen]
          · simp [runLog_append_attempts, attemptLog, haA, hfail, isFailure]
          · simp [runLog_append_invocations, attemptLog, hinvA, hilen]
          · simp [runLog_append_invocations, attemptLog, hinvA, himod]
            rcases hk with hk1 | hk1 <;> simp [hk1]

theorem v3_stage1_success (w : World) (dyn : String) :
    ∀ (fuel n : Nat) (k : String) (le : Option JsError) (c : Option String)
      (m t : String) (c2 : Option String) (log : RunLog),
    V3.stage1 w dyn fuel n k le c = (V3.Stage1Result.success m t, c2, log) →
    c2 = some t ∧ log.cacheWrites = [t] ∧
      (∃ pre, log.attempts = pre ++ [⟨m, JsResult.ok t⟩] ∧ (pre.all isFailure) = true) ∧
      log.attempts.length ≤ fuel ∧
      (∃ j cc fr, w.llmHttp j m = LLMHttp.ok (some cc) fr ∧ t = jsTrim cc) := by
  intro fuel
  induction fuel with
  | zero =>
      intro n k le c m t c2 log h
      rw [v3_stage1_zero] at h
      simp at h
  | succ rem ih =>
      intro n k le c m t c2 log h
      rcases h0 : V3.generateAndCacheContent w n k dyn c with ⟨r, cA, logA⟩
      cases r with
      | ok u =>
          rw [v3_stage1_succ_ok w dyn rem n k le c u cA logA h0] at h
          simp only [Prod.mk.injEq, V3.Stage1Result.success.injEq] at h
          obtain ⟨⟨hkm, hut⟩, hcA2, hlog⟩ := h
          obtain ⟨hcA, hlogA, cc, fr, hresp, htrim⟩ := v3_genCC_ok w n k dyn c u cA logA h0
          subst hlog
          subst hlogA
          rw [← hkm, ← hut]
          refine ⟨by rw [← hcA2, hcA], ?_, ⟨[], ?_, rfl⟩, ?_, ⟨n, cc, fr, hresp, htrim⟩⟩
          · simp [runLog_append_cacheWrites, attemptLog, invokeLog, putLog, RunLog.append]
          · simp [runLog_append_attempts, attemptLog, invokeLog, putLog, RunLog.append]
          · simp [runLog_append_attempts, attemptLog, invokeLog, putLog, RunLog.append]
      | err e =>
          rw [v3_stage1_succ_err w dyn rem n k le c e cA logA h0] at h
          rcases hrest : V3.stage1 w dyn rem (Nat.succ n)
              (if k = "PRIMARY" ∧ e.statusCode = some 429 then "FALLBACK" else k) (some e) cA
            with ⟨res2, cB, logB⟩
          rw [hrest] at h
          simp only [Prod.mk.injEq] at h
          obtain ⟨hres, hcB, hlog⟩ := h
          subst hres
          obtain ⟨hcBt, hcw, ⟨pre, hpre, hprefail⟩, hlen, horacle⟩ :=
            ih (Nat.succ n) _ (some e) cA m t cB logB hrest
          obtain ⟨-, hcwA, haA, -, -⟩ := v3_genCC_err w n k dyn c e cA logA h0
          subst hlog
          refine ⟨by rw [← hcB, hcBt], ?_, ?_, ?_, horacle⟩
          · simp [runLog_append_cacheWrites, attemptLog, hcwA, hcw]
          · refine ⟨⟨k, JsResult.err e⟩ :: pre, ?_, ?_⟩
            · simp [runLog_append_attempts, attemptLog, haA, hpre]
            · simp [isFailure, hprefail]
          · simp only [runLog_append_attempts, attemptLog, haA, List.nil_append, List.append_nil,
              List.singleton_append, List.length_cons]
            exact Nat.succ_le_succ hlen

theorem v3_genCC_attempts (w : World) (n : Nat) (k dyn : String) (c : Option String) :
    (V3.generateAndCacheContent w n k dyn c).2.2.attempts = [] := by
  unfold V3.generateAndCacheContent
  split
  · rfl
  · split
    · rfl
    · rfl

theorem v3_genCC_promptFetches (w : World) (n : Nat) (k dyn : String) (c : Option String) :
    (V3.generateAndCacheContent w n k dyn c).2.2.promptFetches = 0 := by
  unfold V3.generateAndCacheContent
  split
  · rfl
  · split
    · rfl
    · rfl

theorem v3_genCC_invocations_prompts (w : World) (n : Nat) (k dyn : String) (c : Option String) :
    ((V3.generateAndCacheContent w n k dyn c).2.2.invocations.all
      (fun i => i.prompt == dyn)) = true := by
  unfold V3.generateAndCacheContent
  split
  · simp [emptyLog]
  · split
    · simp [invokeLog]
    · simp [runLog_append_invocations, invokeLog, putLog]

theorem all_prompts_flip (dyn : String) (L : List Invocation)
    (h : (L.all (fun i => i.prompt == dyn)) = true) :
    (L.all (fun i => JsResult.ok dyn == JsResult.ok i.prompt)) = true := by
  rw [List.all_eq_true] at h ⊢
  intro i hi
  have h2 := h i hi
  rw [beq_iff_eq] at h2
  rw [beq_iff_eq, h2]

/-- C1, counterexample.  In the index.js revision the dynamic prompt is
fetched by update_kv_text inside every attempt: a run in which all 16
attempts fail performs 16 prompt-source fetches, not one. -/
theorem indexjs_prompt_fetch_count_equals_attempts :
    (IndexJs.run_update_with_retries wAllFail none).log.attempts.length = 16 ∧
    ((IndexJs.run_update_with_retries wAllFail none).log.attempts.all isFailure) = true ∧
    (IndexJs.run_update_with_retries wAllFail none).log.promptFetches = 16 ∧
    ((IndexJs.run_update_with_retries wAllFail none).log.promptFetches == 1) = false := by
  decide

/-- C1, amended: in the third part_000 revision (executeResilientUpdate)
the dynamic prompt is fetched exactly once per run, and every LLM
invocation of the run is given exactly the successfully fetched prompt
value; in the index.js revision the prompt is fetched once per attempt
instead. -/
theorem v3_prompt_fetched_once_and_reused (w : World) (cache : Option String) :
    (V3.executeResilientUpdate w cache).log.promptFetches = 1 ∧
    ((V3.executeResilientUpdate w cache).log.invocations.all
      (fun i => fetchRemotePrompt w 0 == JsResult.ok i.prompt)) = true := by
  unfold V3.executeResilientUpdate
  rcases hf : fetchRemotePrompt w 0 with dyn | fe
  · rcases hs : V3.stage1 w dyn V3.MAX_ATTEMPTS 0 "PRIMARY" none cache with ⟨res, c2, log1⟩
    obtain ⟨hpf1, hprompts1⟩ := v3_stage1_fetch_free w dyn V3.MAX_ATTEMPTS 0 "PRIMARY" none cache
    rw [hs] at hpf1 hprompts1
    have hpf1b : log1.promptFetches = 0 := hpf1
    have hprompts1b : (log1.invocations.all (fun i => i.prompt == dyn)) = true := hprompts1
    cases res with
    | success m t =>
        simp only [hf, hs]
        constructor
        · simp [runLog_append_promptFetches, fetchLog, hpf1b]
        · simp only [runLog_append_invocations, fetchLog, List.nil_append]
          exact all_prompts_flip dyn _ hprompts1b
    | exhausted le =>
        rcases hgen : V3.generateAndCacheContent w V3.MAX_ATTEMPTS "FINAL" dyn c2
          with ⟨rf, c3, log2⟩
        have hgpf := v3_genCC_promptFetches w V3.MAX_ATTEMPTS "FINAL" dyn c2
        rw [hgen] at hgpf
        have hgpfb : log2.promptFetches = 0 := hgpf
        have hgpr := v3_genCC_invocations_prompts w V3.MAX_ATTEMPTS "FINAL" dyn c2
        rw [hgen] at hgpr
        have hgprb : (log2.invocations.all (fun i => i.prompt == dyn)) = true := hgpr
        cases rf with
        | ok t =>
            simp only [hf, hs, hgen]
            constructor
            · simp [runLog_append_promptFetches, fetchLog, attemptLog, hpf1b, hgpfb]
            · simp only [runLog_append_invocations, fetchLog, attemptLog, List.nil_append,
                List.append_nil, List.all_append]
              rw [all_prompts_flip dyn _ hprompts1b, all_prompts_flip dyn _ hgprb]
              rfl
        | err fe2 =>
            simp only [hf, hs, hgen]
            constructor
            · simp [runLog_append_promptFetches, fetchLog, attemptLog, hpf1b, hgpfb]
            · simp only [runLog_append_invocations, fetchLog, attemptLog, List.nil_append,
                List.append_nil, List.all_append]
              rw [all_prompts_flip dyn _ hprompts1b, all_prompts_flip dyn _ hgprb]
              rfl
  · simp only [hf]
    exact ⟨rfl, rfl⟩

/-- C2: in the Stage-1 retry loops of the index.js revision and of the
second part_000 revision, every attempt that has a successor failed, and
the successor uses the fallback exactly when the current model is the
primary one and the failure qualifies (statusCode 429 in index.js;
statusCode 429 or at least 500 in the second revision); consequently a run
in which every attempt fails with a non-429, non-5xx error stays on the
initial model for all configured attempts. -/
theorem escalation_step_rule_and_stability :
    (∀ (w : World) (cache : Option String),
      List.Chain'
        (fun a b => isFailure a = true ∧
          b.model = if a.model = IndexJs.PRIMARY_MODEL ∧ qualifies429 a = true
                    then IndexJs.FALLBACK_MODEL else a.model)
        (IndexJs.run_update_with_retries w cache).log.attempts) ∧
    (∀ (w : World) (cache : Option String),
      List.Chain'
        (fun a b => isFailure a = true ∧
          b.model = if a.model = "PRIMARY" ∧ (qualifies429 a = true ∨ qualifies5xx a = true)
                    then "FALLBACK" else a.model)
        (V2.executeResilientUpdate w cache).log.attempts) ∧
    (∀ (w : World) (cache : Option String),
      ((IndexJs.run_update_with_retries w cache).log.attempts.all nonQualifyingFailure) = true →
      (IndexJs.run_update_with_retries w cache).log.attempts.length = IndexJs.RETRY_ATTEMPTS ∧
      ((IndexJs.run_update_with_retries w cache).log.attempts.all
        (fun a => a.model == IndexJs.PRIMARY_MODEL)) = true) ∧
    (∀ (w : World) (cache : Option String),
      ((V2.executeResilientUpdate w cache).log.attempts.all nonQualifyingFailure) = true →
      (V2.executeResilientUpdate w cache).log.attempts.length = V2.MAX_ATTEMPTS ∧
      ((V2.executeResilientUpdate w cache).log.attempts.all
        (fun a => a.model == "PRIMARY")) = true) := by
  refine ⟨?_, ?_, ?_, ?_⟩
  · intro w cache
    simpa [IndexJs.run_update_with_retries] using
      indexjs_retryLoop_chain w IndexJs.RETRY_ATTEMPTS 0 IndexJs.PRIMARY_MODEL cache
  · intro w cache
    simpa [V2.executeResilientUpdate] using
      v2_updateLoop_chain w V2.MAX_ATTEMPTS 0 "PRIMARY" cache
  · intro w cache hall
    have hall2 : ((IndexJs.retryLoop w IndexJs.RETRY_ATTEMPTS 0 IndexJs.PRIMARY_MODEL
        cache).2.2.attempts.all nonQualifyingFailure) = true := by
      simpa [IndexJs.run_update_with_retries] using hall
    have hres := indexjs_retryLoop_stable w IndexJs.RETRY_ATTEMPTS 0 IndexJs.PRIMARY_MODEL
      cache hall2
    constructor
    · simpa [IndexJs.run_update_with_retries] using hres.1
    · simpa [IndexJs.run_update_with_retries] using hres.2
  · intro w cache hall
    have hall2 : ((V2.updateLoop w V2.MAX_ATTEMPTS 0 "PRIMARY"
        cache).2.2.attempts.all nonQualifyingFailure) = true := by
      simpa [V2.executeResilientUpdate] using hall
    have hres := v2_updateLoop_stable w V2.MAX_ATTEMPTS 0 "PRIMARY" cache hall2
    constructor
    · simpa [V2.executeResilientUpdate] using hres.1
    · simpa [V2.executeResilientUpdate] using hres.2

/-- C2, witness: the step relation instantiated on a run that escalates
(429 then success), and the stay-on-initial consequence on runs in which
all attempts fail with 404. -/
theorem escalation_step_rule_and_stability_witness :
    (List.Chain'
      (fun a b => isFailure a = true ∧
        b.model = if a.model = IndexJs.PRIMARY_MODEL ∧ qualifies429 a = true
                  then IndexJs.FALLBACK_MODEL else a.model)
      (IndexJs.run_update_with_retries wSucceed2 none).log.attempts) ∧
    (List.Chain'
      (fun a b => isFailure a = true ∧
        b.model = if a.model = "PRIMARY" ∧ (qualifies429 a = true ∨ qualifies5xx a = true)
                  then "FALLBACK" else a.model)
      (V2.executeResilientUpdate wSucceed2 none).log.attempts) ∧
    ((IndexJs.run_update_with_retries wAllFail none).log.attempts.length = IndexJs.RETRY_ATTEMPTS ∧
      ((IndexJs.run_update_with_retries wAllFail none).log.attempts.all
        (fun a => a.model == IndexJs.PRIMARY_MODEL)) = true) ∧
    ((V2.executeResilientUpdate wAllFail none).log.attempts.length = V2.MAX_ATTEMPTS ∧
      ((V2.executeResilientUpdate wAllFail none).log.attempts.all
        (fun a => a.model == "PRIMARY")) = true) :=
  ⟨escalation_step_rule_and_stability.1 wSucceed2 none,
   escalation_step_rule_and_stability.2.1 wSucceed2 none,
   escalation_step_rule_and_stability.2.2.1 wAllFail none (by decide),
   escalation_step_rule_and_stability.2.2.2 wAllFail none (by decide)⟩

/-- C3: within one run the sequence of models attempted is monotone along
the escalation order (a block of primary attempts, then a block of fallback
attempts, then in the third revision at most a final-tier attempt), and
when the first Stage-1 attempt fails with statusCode 429 every later
Stage-1 attempt uses the fallback. -/
theorem escalation_monotonic_never_reverts :
    (∀ (w : World) (cache : Option String), ∃ p f,
      ((IndexJs.run_update_with_retries w cache).log.attempts.map Attempt.model)
        = List.replicate p IndexJs.PRIMARY_MODEL ++ List.replicate f IndexJs.FALLBACK_MODEL) ∧
    (∀ (w : World) (cache : Option String), ∃ p f z,
      ((V3.executeResilientUpdate w cache).log.attempts.map Attempt.model)
        = List.replicate p "PRIMARY" ++ List.replicate f "FALLBACK" ++ List.replicate z "FINAL") ∧
    (∀ (w : World) (cache : Option String) (a : Attempt),
      ((IndexJs.run_update_with_retries w cache).log.attempts).head? = some a →
      qualifies429 a = true →
      (((IndexJs.run_update_with_retries w cache).log.attempts).tail.all
        (fun b => b.model == IndexJs.FALLBACK_MODEL)) = true) ∧
    (∀ (w : World) (dyn : String) (cache : Option String) (a : Attempt),
      ((V3.stage1 w dyn V3.MAX_ATTEMPTS 0 "PRIMARY" none cache).2.2.attempts).head? = some a →
      qualifies429 a = true →
      (((V3.stage1 w dyn V3.MAX_ATTEMPTS 0 "PRIMARY" none cache).2.2.attempts).tail.all
        (fun b => b.model == "FALLBACK")) = true) := by
  refine ⟨?_, ?_, ?_, ?_⟩
  · intro w cache
    obtain ⟨p, f, hpf⟩ := indexjs_retryLoop_shape w IndexJs.RETRY_ATTEMPTS 0 cache
    refine ⟨p, f, ?_⟩
    simpa [IndexJs.run_update_with_retries] using hpf
  · intro w cache
    unfold V3.executeResilientUpdate
    rcases hf : fetchRemotePrompt w 0 with dyn | fe
    · rcases hs : V3.stage1 w dyn V3.MAX_ATTEMPTS 0 "PRIMARY" none cache with ⟨res, c2, log1⟩
      obtain ⟨p, f, hpf⟩ := v3_stage1_shape w dyn V3.MAX_ATTEMPTS 0 none cache
      rw [hs] at hpf
      have hpfb : (log1.attempts.map Attempt.model)
          = List.replicate p "PRIMARY" ++ List.replicate f "FALLBACK" := hpf
      cases res with
      | success m t =>
          refine ⟨p, f, 0, ?_⟩
          simp only [hs]
          simp [runLog_append_attempts, fetchLog, hpfb]
      | exhausted le =>
          rcases hgen : V3.generateAndCacheContent w V3.MAX_ATTEMPTS "FINAL" dyn c2
            with ⟨rf, c3, log2⟩
          have hga := v3_genCC_attempts w V3.MAX_ATTEMPTS "FINAL" dyn c2
          rw [hgen] at hga
          have hgab : log2.attempts = [] := hga
          cases rf with
          | ok t =>
              refine ⟨p, f, 1, ?_⟩
              simp only [hs, hgen]
              simp [runLog_append_attempts, attemptLog, fetchLog, hgab, hpfb,
                List.replicate_succ]
          | err fe2 =>
              refine ⟨p, f, 1, ?_⟩
              simp only [hs, hgen]
              simp [runLog_append_attempts, attemptLog, fetchLog, hgab, hpfb,
                List.replicate_succ]
    · exact ⟨0, 0, 0, by simp [fetchLog]⟩
  · intro w cache a ha h429
    have ha2 : ((IndexJs.retryLoop w IndexJs.RETRY_ATTEMPTS 0 IndexJs.PRIMARY_MODEL
        cache).2.2.attempts).head? = some a := by
      simpa [IndexJs.run_update_with_retries] using ha
    have := indexjs_retryLoop_first_429_locks w IndexJs.RETRY_ATTEMPTS 0 cache a ha2 h429
    simpa [IndexJs.run_update_with_retries] using this
  · intro w dyn cache a ha h429
    exact v3_stage1_first_429_locks w dyn V3.MAX_ATTEMPTS 0 none cache a ha h429

/-- C3, witness: on a world whose first LLM call answers 429 and whose
later calls answer 404, every attempt after the first uses the fallback
model, in both revisions. -/
theorem escalation_monotonic_never_reverts_witness :
    (∃ p f, ((IndexJs.run_update_with_retries wFirst429 none).log.attempts.map Attempt.model)
      = List.replicate p IndexJs.PRIMARY_MODEL ++ List.replicate f IndexJs.FALLBACK_MODEL) ∧
    (∃ p f z, ((V3.executeResilientUpdate wFirst429 none).log.attempts.map Attempt.model)
      = List.replicate p "PRIMARY" ++ List.replicate f "FALLBACK" ++ List.replicate z "FINAL") ∧
    (((IndexJs.run_update_with_retries wFirst429 none).log.attempts).tail.all
      (fun b => b.model == IndexJs.FALLBACK_MODEL)) = true ∧
    (((V3.stage1 wFirst429 "seed phrase" V3.MAX_ATTEMPTS 0 "PRIMARY" none none).2.2.attempts).tail.all
      (fun b => b.model == "FALLBACK")) = true :=
  ⟨escalation_monotonic_never_reverts.1 wFirst429 none,
   escalation_monotonic_never_reverts.2.1 wFirst429 none,
   escalation_monotonic_never_reverts.2.2.1 wFirst429 none
     ⟨IndexJs.PRIMARY_MODEL, JsResult.err ⟨some 429, "LLM API 请求失败，状态码: 429"⟩⟩
     (by decide) (by decide),
   escalation_monotonic_never_reverts.2.2.2 wFirst429 "seed phrase" none
     ⟨"PRIMARY", JsResult.err ⟨some 429, "API Request Failed (429)"⟩⟩
     (by decide) (by decide)⟩

/-- C4, counterexample.  In the index.js revision a prompt-fetch failure
does not abort the run: the failing fetch is caught by the retry loop and
re-issued on each of the 16 attempts, no LLM invocation occurs, and the
terminal error is the generic all-retries-failed error rather than a
critical-dependency failure. -/
theorem indexjs_prompt_failure_is_retried :
    (IndexJs.run_update_with_retries wPrompt503 none).log.promptFetches = 16 ∧
    ((IndexJs.run_update_with_retries wPrompt503 none).log.promptFetches == 1) = false ∧
    (IndexJs.run_update_with_retries wPrompt503 none).log.invocations = [] ∧
    (IndexJs.run_update_with_retries wPrompt503 none).outcome
      = RunOutcome.err ⟨none, "All retry attempts failed. The content was not updated."⟩ := by
  decide

/-- C4, amended: in the third part_000 revision (executeResilientUpdate) a
prompt-fetch failure aborts the run at once with the critical-dependency
error: the returned record carries exactly one prompt-source call, zero LLM
invocations, zero attempts, no cache write, and the unchanged cache. In
the index.js revision the failing fetch is instead retried on every
attempt. -/
theorem v3_prompt_failure_aborts_run (w : World) (cache : Option String) (e : JsError)
    (h : fetchRemotePrompt w 0 = JsResult.err e) :
    V3.executeResilientUpdate w cache =
      ⟨RunOutcome.err
          ⟨none, "Critical Dependency Failure: Unable to fetch prompt. " ++ e.message⟩,
        cache, fetchLog⟩ := by
  unfold V3.executeResilientUpdate
  rw [h]

/-- C4, amended, witness: a prompt source answering 503 aborts the third
revision run immediately. -/
theorem v3_prompt_failure_aborts_run_witness :
    V3.executeResilientUpdate wPrompt503 none =
      ⟨RunOutcome.err
          ⟨none, "Critical Dependency Failure: Unable to fetch prompt. "
            ++ "Remote prompt fetch failed: 503"⟩,
        none, fetchLog⟩ :=
  v3_prompt_failure_aborts_run wPrompt503 none ⟨some 503, "Remote prompt fetch failed: 503"⟩
    (by decide)

/-- C6, counterexample.  In the first part_000 revision a run whose three
attempts all fail terminates with neither a returned result nor a thrown
error: run_update_with_retries only logs and returns undefined. -/
theorem v1_run_ends_without_result_or_error :
    (V1.run_update_with_retries wAllFail none).outcome = RunOutcome.noResult ∧
    (V1.run_update_with_retries wAllFail none).log.attempts.length = 3 ∧
    ((V1.run_update_with_retries wAllFail none).log.attempts.all isFailure) = true ∧
    isTerminal (V1.run_update_with_retries wAllFail none).outcome = false := by
  decide

/-- C6, amended: in the index.js revision and in the second and third
part_000 revisions every orchestrator run terminates either with a returned
result or with a thrown error; the first part_000 revision instead always
completes without either. -/
theorem later_revisions_terminate_ok_or_err :
    (∀ (w : World) (cache : Option String),
      isTerminal (IndexJs.run_update_with_retries w cache).outcome = true) ∧
    (∀ (w : World) (cache : Option String),
      isTerminal (V2.executeResilientUpdate w cache).outcome = true) ∧
    (∀ (w : World) (cache : Option String),
      isTerminal (V3.executeResilientUpdate w cache).outcome = true) := by
  refine ⟨?_, ?_, ?_⟩
  · intro w cache
    simpa [IndexJs.run_update_with_retries] using
      indexjs_retryLoop_terminal w IndexJs.RETRY_ATTEMPTS 0 IndexJs.PRIMARY_MODEL cache
  · intro w cache
    simpa [V2.executeResilientUpdate] using
      v2_updateLoop_terminal w V2.MAX_ATTEMPTS (by decide) 0 "PRIMARY" cache
  · intro w cache
    unfold V3.executeResilientUpdate
    rcases hf : fetchRemotePrompt w 0 with dyn | fe
    · rcases hs : V3.stage1 w dyn V3.MAX_ATTEMPTS 0 "PRIMARY" none cache with ⟨res, c2, log1⟩
      cases res with
      | success m t => simp only [hf, hs]; rfl
      | exhausted le =>
          rcases hgen : V3.generateAndCacheContent w V3.MAX_ATTEMPTS "FINAL" dyn c2
            with ⟨rf, c3, log2⟩
          cases rf with
          | ok t => simp only [hf, hs, hgen]; rfl
          | err fe2 => simp only [hf, hs, hgen]; rfl
    · simp only [hf]
      rfl

/-- C5: when the prompt was fetched and all Stage-1 attempts failed, the
third revision makes exactly one further LLM invocation, against the FINAL
registry entry and with the same pre-fetched prompt; if that invocation
succeeds the run returns a result with the FINAL model, and if it fails the
run throws one aggregate error carrying both the Stage-1 last error and the
FINAL error. -/
theorem v3_final_tier_single_attempt (w : World) (cache : Option String) (dyn : String)
    (lastErr : Option JsError)
    (hfetch : fetchRemotePrompt w 0 = JsResult.ok dyn)
    (hstage : (V3.stage1 w dyn V3.MAX_ATTEMPTS 0 "PRIMARY" none cache).1
        = V3.Stage1Result.exhausted lastErr) :
    ((V3.executeResilientUpdate w cache).log.invocations.filter
        (fun i => i.model == "FINAL")).length = 1 ∧
    (V3.executeResilientUpdate w cache).log.invocations.length = V3.MAX_ATTEMPTS + 1 ∧
    ((V3.executeResilientUpdate w cache).log.invocations.all
        (fun i => i.prompt == dyn)) = true ∧
    (∀ (t : String) (c3 : Option String) (l2 : RunLog),
        V3.generateAndCacheContent w V3.MAX_ATTEMPTS "FINAL" dyn
            (V3.stage1 w dyn V3.MAX_ATTEMPTS 0 "PRIMARY" none cache).2.1
          = (JsResult.ok t, c3, l2) →
        (V3.executeResilientUpdate w cache).outcome = RunOutcome.ok "FINAL" t) ∧
    (∀ (fe : JsError) (c3 : Option String) (l2 : RunLog),
        V3.generateAndCacheContent w V3.MAX_ATTEMPTS "FINAL" dyn
            (V3.stage1 w dyn V3.MAX_ATTEMPTS 0 "PRIMARY" none cache).2.1
          = (JsResult.err fe, c3, l2) →
        (V3.executeResilientUpdate w cache).outcome
          = RunOutcome.err ⟨none, V3.exhaustedMessage lastErr fe⟩) := by
  rcases hs : V3.stage1 w dyn V3.MAX_ATTEMPTS 0 "PRIMARY" none cache with ⟨res, c2, log1⟩
  rw [hs] at hstage
  have hres : res = V3.Stage1Result.exhausted lastErr := hstage
  subst hres
  obtain ⟨hc2, hcw1, hal, haf, hilen1, himod⟩ :=
    v3_stage1_exhausted w dyn V3.MAX_ATTEMPTS 0 "PRIMARY" none cache lastErr c2 log1
      (Or.inl rfl) hs
  obtain ⟨hpf1, hprompts1⟩ := v3_stage1_fetch_free w dyn V3.MAX_ATTEMPTS 0 "PRIMARY" none cache
  rw [hs] at hprompts1
  have hprompts1b : (log1.invocations.all (fun i => i.prompt == dyn)) = true := hprompts1
  have hfilter1 : log1.invocations.filter (fun i => i.model == "FINAL") = [] := by
    rw [List.filter_eq_nil_iff]
    intro i hi
    rw [List.all_eq_true] at himod
    have h2 := himod i hi
    simp only [Bool.or_eq_true, beq_iff_eq] at h2
    simp only [beq_iff_eq]
    rcases h2 with h2 | h2 <;> simp [h2]
  rcases hgen : V3.generateAndCacheContent w V3.MAX_ATTEMPTS "FINAL" dyn c2 with ⟨rf, c3, log2⟩
  have hinv2 := v3_genCC_valid_invocations w V3.MAX_ATTEMPTS "FINAL" dyn c2
    (Or.inr (Or.inr rfl))
  rw [hgen] at hinv2
  have hinv2b : log2.invocations = [⟨"FINAL", dyn⟩] := hinv2
  unfold V3.executeResilientUpdate
  cases rf with
  | ok t0 =>
      refine ⟨?_, ?_, ?_, ?_, ?_⟩
      · simp only [hfetch, hs, hgen]
        simp [runLog_append_invocations, fetchLog, attemptLog, List.filter_append, hfilter1,
          hinv2b]
      · simp only [hfetch, hs, hgen]
        simp [runLog_append_invocations, fetchLog, attemptLog, hinv2b, hilen1, V3.MAX_ATTEMPTS]
      · simp only [hfetch, hs, hgen]
        simp only [runLog_append_invocations, fetchLog, attemptLog, List.nil_append,
          List.append_nil, List.all_append]
        rw [hprompts1b, hinv2b]
        simp
      · intro t c3b l2 hgeq
        simp only [Prod.mk.injEq, JsResult.ok.injEq] at hgeq
        obtain ⟨h1, -, -⟩ := hgeq
        simp only [hfetch, hs, hgen]
        rw [h1]
      · intro fe c3b l2 hgeq
        simp at hgeq
  | err fe0 =>
      refine ⟨?_, ?_, ?_, ?_, ?_⟩
      · simp only [hfetch, hs, hgen]
        simp [runLog_append_invocations, fetchLog, attemptLog, List.filter_append, hfilter1,
          hinv2b]
      · simp only [hfetch, hs, hgen]
        simp [runLog_append_invocations, fetchLog, attemptLog, hinv2b, hilen1, V3.MAX_ATTEMPTS]
      · simp only [hfetch, hs, hgen]
        simp only [runLog_append_invocations, fetchLog, attemptLog, List.nil_append,
          List.append_nil, List.all_append]
        rw [hprompts1b, hinv2b]
        simp
      · intro t c3b l2 hgeq
        simp at hgeq
      · intro fe c3b l2 hgeq
        simp only [Prod.mk.injEq, JsResult.err.injEq] at hgeq
        obtain ⟨h1, -, -⟩ := hgeq
        simp only [hfetch, hs, hgen]
        rw [h1]

/-- C5, witness: on a world whose LLM endpoints always answer 404, Stage 1
exhausts its eight attempts and exactly one FINAL invocation follows. -/
theorem v3_final_tier_single_attempt_witness :
    ((V3.executeResilientUpdate wAllFail none).log.invocations.filter
        (fun i => i.model == "FINAL")).length = 1 ∧
    (V3.executeResilientUpdate wAllFail none).log.invocations.length = V3.MAX_ATTEMPTS + 1 ∧
    ((V3.executeResilientUpdate wAllFail none).log.invocations.all
        (fun i => i.prompt == "seed phrase")) = true ∧
    (∀ (t : String) (c3 : Option String) (l2 : RunLog),
        V3.generateAndCacheContent wAllFail V3.MAX_ATTEMPTS "FINAL" "seed phrase"
            (V3.stage1 wAllFail "seed phrase" V3.MAX_ATTEMPTS 0 "PRIMARY" none none).2.1
          = (JsResult.ok t, c3, l2) →
        (V3.executeResilientUpdate wAllFail none).outcome = RunOutcome.ok "FINAL" t) ∧
    (∀ (fe : JsError) (c3 : Option String) (l2 : RunLog),
        V3.generateAndCacheContent wAllFail V3.MAX_ATTEMPTS "FINAL" "seed phrase"
            (V3.stage1 wAllFail "seed phrase" V3.MAX_ATTEMPTS 0 "PRIMARY" none none).2.1
          = (JsResult.err fe, c3, l2) →
        (V3.executeResilientUpdate wAllFail none).outcome
          = RunOutcome.err ⟨none,
              V3.exhaustedMessage (some ⟨some 404, "API Request Failed (404)"⟩) fe⟩) :=
  v3_final_tier_single_attempt wAllFail none "seed phrase"
    (some ⟨some 404, "API Request Failed (404)"⟩) (by decide) (by decide)

/-- C7: when a third-revision run returns a result, the attempt list is a
block of failures followed by exactly the successful attempt (no attempt
follows the success), the cache is written exactly once, with exactly the
returned content, which is the trim of the text the winning LLM response
carried, and the final cache slot holds that content. -/
theorem v3_success_stops_and_caches_trimmed_once (w : World) (cache : Option String)
    (m t : String)
    (h : (V3.executeResilientUpdate w cache).outcome = RunOutcome.ok m t) :
    (V3.executeResilientUpdate w cache).log.cacheWrites = [t] ∧
    (V3.executeResilientUpdate w cache).cache = some t ∧
    (∃ pre, (V3.executeResilientUpdate w cache).log.attempts
        = pre ++ [⟨m, JsResult.ok t⟩] ∧ (pre.all isFailure) = true) ∧
    (V3.executeResilientUpdate w cache).log.attempts.length ≤ V3.MAX_ATTEMPTS + 1 ∧
    (∃ j cc fr, w.llmHttp j m = LLMHttp.ok (some cc) fr ∧ t = jsTrim cc) := by
  rcases hf : fetchRemotePrompt w 0 with dyn | fe
  · rcases hs : V3.stage1 w dyn V3.MAX_ATTEMPTS 0 "PRIMARY" none cache with ⟨res, c2, log1⟩
    cases res with
    | success m2 t2 =>
        obtain ⟨hc2, hcw, ⟨pre, hpre, hprefail⟩, hlen, horacle⟩ :=
          v3_stage1_success w dyn V3.MAX_ATTEMPTS 0 "PRIMARY" none cache m2 t2 c2 log1 hs
        unfold V3.executeResilientUpdate at h ⊢
        simp only [hf, hs] at h ⊢
        simp only [RunOutcome.ok.injEq] at h
        obtain ⟨hm, ht⟩ := h
        subst hm
        subst ht
        refine ⟨?_, ?_, ⟨pre, ?_, hprefail⟩, ?_, horacle⟩
        · simp [runLog_append_cacheWrites, fetchLog, hcw]
        · exact hc2
        · simp [runLog_append_attempts, fetchLog, hpre]
        · simp only [runLog_append_attempts, fetchLog, List.nil_append]
          exact Nat.le_succ_of_le hlen
    | exhausted le =>
        rcases hgen : V3.generateAndCacheContent w V3.MAX_ATTEMPTS "FINAL" dyn c2
          with ⟨rf, c3, log2⟩
        cases rf with
        | ok tf =>
            obtain ⟨-, hcw1, hal, haf, -, -⟩ :=
              v3_stage1_exhausted w dyn V3.MAX_ATTEMPTS 0 "PRIMARY" none cache le c2 log1
                (Or.inl rfl) hs
            obtain ⟨hc3, hlog2, cc, fr, hresp, htrim⟩ :=
              v3_genCC_ok w V3.MAX_ATTEMPTS "FINAL" dyn c2 tf c3 log2 hgen
            unfold V3.executeResilientUpdate at h ⊢
            simp only [hf, hs, hgen] at h ⊢
            simp only [RunOutcome.ok.injEq] at h
            obtain ⟨hm, ht⟩ := h
            subst ht
            subst hlog2
            refine ⟨?_, ?_, ⟨log1.attempts, ?_, haf⟩, ?_, ?_⟩
            · simp [runLog_append_cacheWrites, fetchLog, attemptLog, invokeLog, putLog,
                RunLog.append, hcw1]
            · exact hc3
            · rw [← hm]
              simp [runLog_append_attempts, fetchLog, attemptLog, invokeLog, putLog,
                RunLog.append]
            · simp [runLog_append_attempts, fetchLog, attemptLog, invokeLog, putLog,
                RunLog.append, hal]
            · exact ⟨V3.MAX_ATTEMPTS, cc, fr, by rw [← hm]; exact hresp, htrim⟩
        | err fe2 =>
            unfold V3.executeResilientUpdate at h
            simp only [hf, hs, hgen] at h
            simp at h
  · unfold V3.executeResilientUpdate at h
    simp only [hf] at h
    simp at h

/-- C7, witness: a run that fails once with 429 and then succeeds on the
fallback with untrimmed text stops after the second attempt, writes the
trimmed text once and returns it. -/
theorem v3_success_stops_and_caches_trimmed_once_witness :
    (V3.executeResilientUpdate wSucceed2 none).outcome
      = RunOutcome.ok "FALLBACK" "Generated Output" ∧
    ((V3.executeResilientUpdate wSucceed2 none).log.cacheWrites = ["Generated Output"] ∧
      (V3.executeResilientUpdate wSucceed2 none).cache = some "Generated Output" ∧
      (∃ pre, (V3.executeResilientUpdate wSucceed2 none).log.attempts
          = pre ++ [⟨"FALLBACK", JsResult.ok "Generated Output"⟩] ∧ (pre.all isFailure) = true) ∧
      (V3.executeResilientUpdate wSucceed2 none).log.attempts.length ≤ V3.MAX_ATTEMPTS + 1 ∧
      (∃ j cc fr, wSucceed2.llmHttp j "FALLBACK" = LLMHttp.ok (some cc) fr ∧
        "Generated Output" = jsTrim cc)) :=
  ⟨by decide,
   v3_success_stops_and_caches_trimmed_once wSucceed2 none "FALLBACK" "Generated Output"
     (by decide)⟩

/-- C8, counterexample.  Writing the empty string to the cache and then
reading the root path does not return 200 with an empty body plus newline:
both revisions treat the empty cached value as falsy and answer the 503
placeholder. -/
theorem get_root_empty_write_returns_503 :
    IndexJs.handle_get_text (JsResult.ok (kvPut none "")) =
      ⟨503, "内容正在生成中，请稍后刷新重试。\n", some "text/plain; charset=utf-8"⟩ ∧
    ((IndexJs.handle_get_text (JsResult.ok (kvPut none ""))).status == 200) = false ∧
    V3.handleGetContent (JsResult.ok (kvPut none "")) =
      ⟨503, "Service warming up, content is generating...\n", some "text/plain; charset=utf-8"⟩ := by
  decide

/-- C8, amended: for every text T other than the empty string, writing T to
the cache and then reading the root path returns status 200 with body
exactly T followed by one newline and Content-Type text/plain;
charset=utf-8, in both revisions; for the empty string the read returns the
503 placeholder instead. -/
theorem get_root_roundtrip_nonempty (c : Option String) (T : String)
    (h : (T == "") = false) :
    IndexJs.handle_get_text (JsResult.ok (kvPut c T)) =
      ⟨200, T ++ "\n", some "text/plain; charset=utf-8"⟩ ∧
    V3.handleGetContent (JsResult.ok (kvPut c T)) =
      ⟨200, T ++ "\n", some "text/plain; charset=utf-8"⟩ := by
  have hne : ¬(T = "") := by simpa using h
  constructor
  · simp [IndexJs.handle_get_text, kvPut, hne]
  · simp [V3.handleGetContent, kvPut, hne]

/-- C8, amended, witness. -/
theorem get_root_roundtrip_nonempty_witness :
    IndexJs.handle_get_text (JsResult.ok (kvPut none "hello")) =
      ⟨200, "hello" ++ "\n", some "text/plain; charset=utf-8"⟩ ∧
    V3.handleGetContent (JsResult.ok (kvPut none "hello")) =
      ⟨200, "hello" ++ "\n", some "text/plain; charset=utf-8"⟩ :=
  get_root_roundtrip_nonempty none "hello" (by decide)

/-- C10: a cached value that is the empty string yields the 503 placeholder
on the root path rather than a 200 with an empty body, and every 200
response of the root path carries a non-empty text followed by exactly one
newline, in both revisions. -/
theorem empty_cache_503_and_200_nonempty :
    (IndexJs.handle_get_text (JsResult.ok (some ""))).status = 503 ∧
    (V3.handleGetContent (JsResult.ok (some ""))).status = 503 ∧
    (∀ kv : JsResult (Option String), (IndexJs.handle_get_text kv).status = 200 →
      ∃ s, (s == "") = false ∧ (IndexJs.handle_get_text kv).body = s ++ "\n") ∧
    (∀ kv : JsResult (Option String), (V3.handleGetContent kv).status = 200 →
      ∃ s, (s == "") = false ∧ (V3.handleGetContent kv).body = s ++ "\n") := by
  refine ⟨rfl, rfl, ?_, ?_⟩
  · intro kv h200
    rcases kv with v | e
    · rcases v with _ | s
      · simp [IndexJs.handle_get_text] at h200
      · by_cases hs : s = ""
        · simp [IndexJs.handle_get_text, hs] at h200
        · refine ⟨s, by simpa using hs, ?_⟩
          simp [IndexJs.handle_get_text, hs]
    · simp [IndexJs.handle_get_text] at h200
  · intro kv h200
    rcases kv with v | e
    · rcases v with _ | s
      · simp [V3.handleGetContent] at h200
      · by_cases hs : s = ""
        · simp [V3.handleGetContent, hs] at h200
        · refine ⟨s, by simpa using hs, ?_⟩
          simp [V3.handleGetContent, hs]
    · simp [V3.handleGetContent] at h200

/-- C10, witness. -/
theorem empty_cache_503_and_200_nonempty_witness :
    (∃ s, (s == "") = false ∧
      (IndexJs.handle_get_text (JsResult.ok (some "hi"))).body = s ++ "\n") ∧
    (∃ s, (s == "") = false ∧
      (V3.handleGetContent (JsResult.ok (some "hi"))).body = s ++ "\n") :=
  ⟨empty_cache_503_and_200_nonempty.2.2.1 (JsResult.ok (some "hi")) (by decide),
   empty_cache_503_and_200_nonempty.2.2.2 (JsResult.ok (some "hi")) (by decide)⟩

/-- C9: the update handlers of both revisions answer 405 to a non-POST
method, 500 when the server update token is unset or empty, 401 when the
Authorization header is missing, falsy or not of Bearer shape, and 403 when
the presented token differs from the server token; in each of these
rejection branches the handler returns before any update run, with the
cache slot unchanged and a fixed response. -/
theorem update_endpoint_rejections (w : World) (req : Request) (cache : Option String) :
    ((req.method == "POST") = false →
      IndexJs.handle_force_update w req cache =
        (⟨405, "Method Not Allowed. Please use POST.\n", none⟩, cache) ∧
      V3.handleManualUpdate w req cache =
        (⟨405, "Method Not Allowed. Use POST.\n", none⟩, cache)) ∧
    (req.method = "POST" → jsTruthy w.env.UPDATE_TOKEN = false →
      IndexJs.handle_force_update w req cache =
        (⟨500, "Server configuration error: Update token not set.\n", none⟩, cache) ∧
      V3.handleManualUpdate w req cache =
        (⟨500, "Server configuration error.\n", none⟩, cache)) ∧
    (req.method = "POST" → jsTruthy w.env.UPDATE_TOKEN = true →
      bearerForm req.authorization = false →
      IndexJs.handle_force_update w req cache =
        (⟨401, "Authorization header is missing or invalid.\n", none⟩, cache) ∧
      V3.handleManualUpdate w req cache =
        (⟨401, "Unauthorized: Missing or invalid Bearer token.\n", none⟩, cache)) ∧
    (req.method = "POST" → jsTruthy w.env.UPDATE_TOKEN = true →
      bearerForm req.authorization = true →
      (submittedToken req.authorization == w.env.UPDATE_TOKEN) = false →
      IndexJs.handle_force_update w req cache =
        (⟨403, "Forbidden: Invalid token.\n", none⟩, cache) ∧
      V3.handleManualUpdate w req cache =
        (⟨403, "Forbidden: Invalid token.\n", none⟩, cache)) := by
  refine ⟨?_, ?_, ?_, ?_⟩
  · intro hm
    have hm2 : ¬(req.method = "POST") := by simpa using hm
    constructor
    · unfold IndexJs.handle_force_update
      rw [if_neg hm2]
    · unfold V3.handleManualUpdate
      rw [if_neg hm2]
  · intro hm htok
    constructor
    · unfold IndexJs.handle_force_update
      rw [if_pos hm, if_pos htok]
    · unfold V3.handleManualUpdate
      rw [if_pos hm, if_pos htok]
  · intro hm htok hbear
    have htokne : ¬(jsTruthy w.env.UPDATE_TOKEN = false) := by simp [htok]
    have hcond : jsTruthy req.authorization = false
        ∨ jsStartsWith (req.authorization.getD "") "Bearer " = false := by
      unfold bearerForm at hbear
      cases hx : jsTruthy req.authorization
      · exact Or.inl rfl
      · refine Or.inr ?_
        rw [hx] at hbear
        simpa using hbear
    constructor
    · unfold IndexJs.handle_force_update
      rw [if_pos hm, if_neg htokne, if_pos hcond]
    · unfold V3.handleManualUpdate
      rw [if_pos hm, if_neg htokne, if_pos hcond]
  · intro hm htok hbear hmis
    have htokne : ¬(jsTruthy w.env.UPDATE_TOKEN = false) := by simp [htok]
    have hb2 : jsTruthy req.authorization = true ∧
        jsStartsWith (req.authorization.getD "") "Bearer " = true := by
      simpa [bearerForm, Bool.and_eq_true] using hbear
    have hcondne : ¬(jsTruthy req.authorization = false
        ∨ jsStartsWith (req.authorization.getD "") "Bearer " = false) := by
      simp [hb2.1, hb2.2]
    have hmis2 : ¬((jsSplitSpace (req.authorization.getD "")).get? 1 = w.env.UPDATE_TOKEN) := by
      simpa [submittedToken] using hmis
    constructor
    · unfold IndexJs.handle_force_update
      rw [if_pos hm, if_neg htokne, if_neg hcondne, if_neg hmis2]
    · unfold V3.handleManualUpdate
      rw [if_pos hm, if_neg htokne, if_neg hcondne, if_neg hmis2]

/-- C9, witness: a GET request, a POST without server token, a POST without
Authorization header, and a POST with a wrong Bearer token, each rejected
with the documented status and an unchanged cache. -/
theorem update_endpoint_rejections_witness :
    (IndexJs.handle_force_update wAllFail ⟨"GET", none⟩ (some "old") =
        (⟨405, "Method Not Allowed. Please use POST.\n", none⟩, some "old") ∧
      V3.handleManualUpdate wAllFail ⟨"GET", none⟩ (some "old") =
        (⟨405, "Method Not Allowed. Use POST.\n", none⟩, some "old")) ∧
    (IndexJs.handle_force_update wNoToken ⟨"POST", none⟩ (some "old") =
        (⟨500, "Server configuration error: Update token not set.\n", none⟩, some "old") ∧
      V3.handleManualUpdate wNoToken ⟨"POST", none⟩ (some "old") =
        (⟨500, "Server configuration error.\n", none⟩, some "old")) ∧
    (IndexJs.handle_force_update wAllFail ⟨"POST", none⟩ (some "old") =
        (⟨401, "Authorization header is missing or invalid.\n", none⟩, some "old") ∧
      V3.handleManualUpdate wAllFail ⟨"POST", none⟩ (some "old") =
        (⟨401, "Unauthorized: Missing or invalid Bearer token.\n", none⟩, some "old")) ∧
    (IndexJs.handle_force_update wAllFail ⟨"POST", some "Bearer wrong"⟩ (some "old") =
        (⟨403, "Forbidden: Invalid token.\n", none⟩, some "old") ∧
      V3.handleManualUpdate wAllFail ⟨"POST", some "Bearer wrong"⟩ (some "old") =
        (⟨403, "Forbidden: Invalid token.\n", none⟩, some "old")) :=
  ⟨(update_endpoint_rejections wAllFail ⟨"GET", none⟩ (some "old")).1 (by decide),
   (update_endpoint_rejections wNoToken ⟨"POST", none⟩ (some "old")).2.1 rfl (by decide),
   (update_endpoint_rejections wAllFail ⟨"POST", none⟩ (some "old")).2.2.1 rfl (by decide)
     (by decide),
   (update_endpoint_rejections wAllFail ⟨"POST", some "Bearer wrong"⟩ (some "old")).2.2.2 rfl
     (by decide) (by decide) (by decide)⟩
